import Mathlib

/-!
Verification of the property/value model of the rusticnotion client library
(`src/models/properties.rs`, `src/models/users.rs`), shallowly embedded:
JSON is a Lean inductive, and each serde-derived `Serialize`/`Deserialize`
implementation becomes a `toJson`/`fromJson` function following serde
semantics (internally tagged enums via `#[serde(tag = "type")]`,
`rename_all = "snake_case"`, `skip_serializing_if = "Option::is_none"`,
`#[serde(untagged)]` trying variants in declaration order, and `Option`
fields decoding to `none` when the key is missing or the value is null).
-/

namespace RusticNotion

/-- The serde_json data model, as far as the property model exercises it.
Numbers are modelled as integers (the claims under verification involve no
float arithmetic). Objects are association lists in serialization order. -/
inductive Json where
  | null : Json
  | bool (b : Bool) : Json
  | num (n : Int) : Json
  | str (s : String) : Json
  | arr (elems : List Json) : Json
  | obj (fields : List (String × Json)) : Json

/-- Field lookup in a JSON object (first match; serde_json maps hold no
duplicate keys for the objects our encoders emit). -/
def Json.getField : List (String × Json) → String → Option Json
  | [], _ => none
  | (k, v) :: rest, key => if k = key then some v else Json.getField rest key

def Json.asStr : Json → Option String
  | .str s => some s
  | _ => none

def Json.asNum : Json → Option Int
  | .num n => some n
  | _ => none

def Json.asBool : Json → Option Bool
  | .bool b => some b
  | _ => none

/-- Decode a required struct field: the key must be present and the payload
decoder must succeed (serde errors on a missing required field; a required
non-`Option` field also rejects null because its decoder does). -/
def reqField (fields : List (String × Json)) (key : String) (dec : Json → Option α) :
    Option α :=
  (Json.getField fields key).bind dec

/-- Decode a JSON value sitting in an `Option<T>` position: null yields
`none`, anything else must decode as `T`. -/
def decOptJson (dec : Json → Option α) (j : Json) : Option (Option α) :=
  match j with
  | .null => some none
  | _ => (dec j).map some

/-- Decode an `Option<T>` struct field the way serde derive does: a missing
key or an explicit JSON null yield `none`; any other value must decode as
`T`. -/
def optField (fields : List (String × Json)) (key : String) (dec : Json → Option α) :
    Option (Option α) :=
  match Json.getField fields key with
  | none => some none
  | some j => decOptJson dec j

/-- Serialize an `Option` field marked `skip_serializing_if = "Option::is_none"`:
the key/value pair is omitted entirely when the value is absent. -/
def skipNoneField (key : String) (enc : α → Json) : Option α → List (String × Json)
  | none => []
  | some x => [(key, enc x)]

/-- Encode an `Option<T>` field without `skip_serializing_if`: `None`
serializes as an explicit null. -/
def encOpt (enc : α → Json) : Option α → Json
  | none => .null
  | some x => enc x

/-- Decode every element of a JSON array, failing if any element fails. -/
def decodeElems (dec : Json → Option α) : List Json → Option (List α)
  | [] => some []
  | j :: rest => (dec j).bind fun x => (decodeElems dec rest).map fun xs => x :: xs

/-- Decode a `Vec<T>` payload: must be a JSON array of decodable elements. -/
def decodeArr (dec : Json → Option α) : Json → Option (List α)
  | .arr elems => decodeElems dec elems
  | _ => none

/-- Modelled from the spec: `PropertyId` (src/ids.rs is absent from the
sources); the spec describes the identifier newtypes as opaque wrapper types
whose only contract is to "produce an opaque ID string", serialized
transparently as that string. -/
structure PropertyId where
  val : String
deriving DecidableEq

/-- Modelled from the spec: `PageId`, an opaque page-identifier string
(src/ids.rs is absent from the sources). -/
structure PageId where
  val : String
deriving DecidableEq

/-- Modelled from the spec: `UserId`, an opaque user-identifier string
(src/ids.rs is absent from the sources). -/
structure UserId where
  val : String
deriving DecidableEq

/-- `SelectOptionId` from src/models/properties.rs: a
`#[serde(transparent)]` wrapper around a string. -/
structure SelectOptionId where
  val : String
deriving DecidableEq

def SelectOptionId.toJson (i : SelectOptionId) : Json := .str i.val

def SelectOptionId.fromJson (j : Json) : Option SelectOptionId :=
  (j.asStr).map SelectOptionId.mk

/-- `Color` from src/models/properties.rs, `rename_all = "lowercase"`. -/
inductive Color where
  | default
  | gray
  | brown
  | orange
  | yellow
  | green
  | blue
  | purple
  | pink
  | red
deriving DecidableEq

def Color.toJson : Color → Json
  | .default => .str "default"
  | .gray => .str "gray"
  | .brown => .str "brown"
  | .orange => .str "orange"
  | .yellow => .str "yellow"
  | .green => .str "green"
  | .blue => .str "blue"
  | .purple => .str "purple"
  | .pink => .str "pink"
  | .red => .str "red"

def Color.fromJson : Json → Option Color
  | .str "default" => some .default
  | .str "gray" => some .gray
  | .str "brown" => some .brown
  | .str "orange" => some .orange
  | .str "yellow" => some .yellow
  | .str "green" => some .green
  | .str "blue" => some .blue
  | .str "purple" => some .purple
  | .str "pink" => some .pink
  | .str "red" => some .red
  | _ => none

/-- `Number` is re-exported through src/models (absent from the sources);
modelled from the spec as "an optional numeric value"'s carrier, an integer
in our JSON model. -/
abbrev Number := Int

/-- Modelled from the spec: chrono's `NaiveDate` (an external dependency of
the property model), restricted to the four-digit printable year range; its
serde form is the string `YYYY-MM-DD`. Month/day hold two printable digits
(chrono additionally validates calendar ranges on construction, which the
wire round-trip does not depend on). -/
structure NaiveDate where
  year : Fin 10000
  month : Fin 100
  day : Fin 100
deriving DecidableEq

/-- Modelled from the spec: chrono's `DateTime<Utc>` (external dependency);
its serde form is the RFC 3339 string `YYYY-MM-DDTHH:MM:SS+00:00`. -/
structure DateTimeUtc where
  year : Fin 10000
  month : Fin 100
  day : Fin 100
  hour : Fin 100
  minute : Fin 100
  second : Fin 100
deriving DecidableEq

/-- Two zero-padded decimal digits of `n % 100`. -/
def twoDigits (n : Nat) : List Char :=
  [Nat.digitChar (n / 10 % 10), Nat.digitChar (n % 10)]

def charDigit (c : Char) : Option Nat :=
  if c.isDigit then some (c.toNat - 48) else none

def twoDigitVal (a b : Char) : Option Nat :=
  (charDigit a).bind fun x => (charDigit b).map fun y => x * 10 + y

def NaiveDate.chars (d : NaiveDate) : List Char :=
  twoDigits (d.year.val / 100) ++ twoDigits d.year.val ++
    '-' :: twoDigits d.month.val ++ '-' :: twoDigits d.day.val

def NaiveDate.toJson (d : NaiveDate) : Json := .str (String.mk d.chars)

def parseDateChars : List Char → Option NaiveDate
  | [y1, y2, y3, y4, '-', m1, m2, '-', d1, d2] =>
    (twoDigitVal y1 y2).bind fun hi =>
    (twoDigitVal y3 y4).bind fun lo =>
    (twoDigitVal m1 m2).bind fun m =>
    (twoDigitVal d1 d2).bind fun d =>
    if h : hi * 100 + lo < 10000 ∧ m < 100 ∧ d < 100 then
      some ⟨⟨hi * 100 + lo, h.1⟩, ⟨m, h.2.1⟩, ⟨d, h.2.2⟩⟩
    else none
  | _ => none

def NaiveDate.fromJson (j : Json) : Option NaiveDate :=
  (j.asStr).bind fun s => parseDateChars s.data

def DateTimeUtc.chars (t : DateTimeUtc) : List Char :=
  twoDigits (t.year.val / 100) ++ twoDigits t.year.val ++
    '-' :: twoDigits t.month.val ++ '-' :: twoDigits t.day.val ++
    'T' :: twoDigits t.hour.val ++ ':' :: twoDigits t.minute.val ++
    ':' :: twoDigits t.second.val ++ ['+', '0', '0', ':', '0', '0']

def DateTimeUtc.toJson (t : DateTimeUtc) : Json := .str (String.mk t.chars)

def parseDateTimeChars : List Char → Option DateTimeUtc
  | [y1, y2, y3, y4, '-', m1, m2, '-', d1, d2, 'T',
     h1, h2, ':', n1, n2, ':', s1, s2, '+', '0', '0', ':', '0', '0'] =>
    (twoDigitVal y1 y2).bind fun yhi =>
    (twoDigitVal y3 y4).bind fun ylo =>
    (twoDigitVal m1 m2).bind fun mo =>
    (twoDigitVal d1 d2).bind fun da =>
    (twoDigitVal h1 h2).bind fun ho =>
    (twoDigitVal n1 n2).bind fun mi =>
    (twoDigitVal s1 s2).bind fun se =>
    if h : yhi * 100 + ylo < 10000 ∧ mo < 100 ∧ da < 100 ∧ ho < 100 ∧
        mi < 100 ∧ se < 100 then
      some ⟨⟨yhi * 100 + ylo, h.1⟩, ⟨mo, h.2.1⟩, ⟨da, h.2.2.1⟩,
        ⟨ho, h.2.2.2.1⟩, ⟨mi, h.2.2.2.2.1⟩, ⟨se, h.2.2.2.2.2⟩⟩
    else none
  | _ => none

def DateTimeUtc.fromJson (j : Json) : Option DateTimeUtc :=
  (j.asStr).bind fun s => parseDateTimeChars s.data

/-- `DateOrDateTime` from src/models/properties.rs: `#[serde(untagged)]`,
a calendar date or a full timestamp. -/
inductive DateOrDateTime where
  | date (d : NaiveDate)
  | dateTime (t : DateTimeUtc)
deriving DecidableEq

def DateOrDateTime.toJson : DateOrDateTime → Json
  | .date d => d.toJson
  | .dateTime t => t.toJson

/-- serde(untagged) deserialization: try the variants in declaration order,
`Date(NaiveDate)` first, then `DateTime<Utc>`. -/
def DateOrDateTime.fromJson (j : Json) : Option DateOrDateTime :=
  match j with
  | .str s =>
    match parseDateChars s.data with
    | some d => some (.date d)
    | none => (parseDateTimeChars s.data).map .dateTime
  | _ => none

theorem charDigit_digitChar : ∀ n < 10, charDigit (Nat.digitChar n) = some n := by
  decide

theorem twoDigitVal_twoDigits (n : Nat) (h : n < 100) :
    twoDigitVal (Nat.digitChar (n / 10 % 10)) (Nat.digitChar (n % 10)) = some n := by
  have h1 : n / 10 % 10 < 10 := Nat.mod_lt _ (by omega)
  have h2 : n % 10 < 10 := Nat.mod_lt _ (by omega)
  rw [twoDigitVal, charDigit_digitChar _ h1, charDigit_digitChar _ h2]
  simp only [Option.some_bind, Option.map_some']
  congr 1
  omega

theorem parseDateChars_chars (d : NaiveDate) : parseDateChars d.chars = some d := by
  obtain ⟨⟨y, hy⟩, ⟨m, hm⟩, ⟨dd, hd⟩⟩ := d
  have hyd : y / 100 < 100 := by omega
  have hym : y % 100 < 100 := by omega
  simp only [NaiveDate.chars, twoDigits, List.cons_append, List.nil_append]
  rw [parseDateChars]
  have e1 : y / 100 / 10 % 10 = y / 100 / 10 % 10 := rfl
  rw [show (y : Nat) % 10 = y % 100 % 10 by omega]
  rw [show (y : Nat) / 10 % 10 = y % 100 / 10 % 10 by omega]
  rw [twoDigitVal_twoDigits _ hyd, twoDigitVal_twoDigits _ hym,
    twoDigitVal_twoDigits _ hm, twoDigitVal_twoDigits _ hd]
  simp only [Option.some_bind]
  rw [dif_pos (by omega)]
  simp only [Option.some.injEq, NaiveDate.mk.injEq, Fin.mk.injEq]
  exact ⟨by omega, trivial, trivial⟩

set_option maxHeartbeats 1000000 in
theorem parseDateTimeChars_chars (t : DateTimeUtc) :
    parseDateTimeChars t.chars = some t := by
  obtain ⟨⟨y, hy⟩, ⟨mo, hmo⟩, ⟨da, hda⟩, ⟨ho, hho⟩, ⟨mi, hmi⟩, ⟨se, hse⟩⟩ := t
  have hyd : y / 100 < 100 := by omega
  have hym : y % 100 < 100 := by omega
  simp only [DateTimeUtc.chars, twoDigits, List.cons_append, List.nil_append]
  rw [parseDateTimeChars]
  rw [show (y : Nat) % 10 = y % 100 % 10 by omega]
  rw [show (y : Nat) / 10 % 10 = y % 100 / 10 % 10 by omega]
  rw [twoDigitVal_twoDigits _ hyd, twoDigitVal_twoDigits _ hym,
    twoDigitVal_twoDigits _ hmo, twoDigitVal_twoDigits _ hda,
    twoDigitVal_twoDigits _ hho, twoDigitVal_twoDigits _ hmi,
    twoDigitVal_twoDigits _ hse]
  simp only [Option.some_bind]
  rw [dif_pos (by omega)]
  simp only [Option.some.injEq, DateTimeUtc.mk.injEq, Fin.mk.injEq]
  exact ⟨by omega, trivial, trivial, trivial, trivial, trivial⟩

theorem parseDateChars_of_length_ne (cs : List Char) (h : cs.length ≠ 10) :
    parseDateChars cs = none := by
  unfold parseDateChars
  split
  · simp at h
  · rfl

theorem dateTimeUtc_chars_length (t : DateTimeUtc) : t.chars.length = 25 := by
  simp [DateTimeUtc.chars, twoDigits]

theorem parseDateChars_dateTime (t : DateTimeUtc) :
    parseDateChars t.chars = none :=
  parseDateChars_of_length_ne _ (by rw [dateTimeUtc_chars_length]; omega)

theorem naiveDate_roundtrip (d : NaiveDate) :
    NaiveDate.fromJson d.toJson = some d := by
  simp only [NaiveDate.toJson, NaiveDate.fromJson, Json.asStr, Option.some_bind]
  exact parseDateChars_chars d

theorem dateTimeUtc_roundtrip (t : DateTimeUtc) :
    DateTimeUtc.fromJson t.toJson = some t := by
  simp only [DateTimeUtc.toJson, DateTimeUtc.fromJson, Json.asStr, Option.some_bind]
  exact parseDateTimeChars_chars t

theorem dateOrDateTime_roundtrip (v : DateOrDateTime) :
    DateOrDateTime.fromJson v.toJson = some v := by
  cases v with
  | date d =>
    simp only [DateOrDateTime.toJson, DateOrDateTime.fromJson, NaiveDate.toJson]
    rw [parseDateChars_chars]
  | dateTime t =>
    simp only [DateOrDateTime.toJson, DateOrDateTime.fromJson, DateTimeUtc.toJson]
    rw [parseDateChars_dateTime, parseDateTimeChars_chars]
    rfl

/-- Modelled from the spec: `RichText` (src/models/text.rs is absent from
the sources); "a run of text carrying inline formatting/annotation and an
optional link", a plain record serialized as an object with its text and
optional link. -/
structure RichText where
  plain_text : String
  href : Option String
deriving DecidableEq

def RichText.toJson (r : RichText) : Json :=
  .obj [("plain_text", .str r.plain_text), ("href", encOpt Json.str r.href)]

def RichText.fromJson (j : Json) : Option RichText :=
  match j with
  | .obj fields =>
    (reqField fields "plain_text" Json.asStr).bind fun t =>
    (optField fields "href" Json.asStr).map fun h => ⟨t, h⟩
  | _ => none

/-- `UserCommon` from src/models/users.rs: the `{id, name?, avatar_url?}`
core flattened into every `User` variant. -/
structure UserCommon where
  id : UserId
  name : Option String
  avatar_url : Option String
deriving DecidableEq

/-- The key/value pairs contributed by a flattened `UserCommon` (its
`Option` fields carry no skip attribute, so absent values serialize as
explicit nulls). -/
def UserCommon.jsonFields (c : UserCommon) : List (String × Json) :=
  [("id", .str c.id.val), ("name", encOpt Json.str c.name),
    ("avatar_url", encOpt Json.str c.avatar_url)]

def UserCommon.fromFields (fields : List (String × Json)) : Option UserCommon :=
  (reqField fields "id" (fun j => (j.asStr).map UserId.mk)).bind fun uid =>
  (optField fields "name" Json.asStr).bind fun nm =>
  (optField fields "avatar_url" Json.asStr).map fun av => ⟨uid, nm, av⟩

/-- `Person` from src/models/users.rs. -/
structure Person where
  email : Option String
deriving DecidableEq

def Person.toJson (p : Person) : Json :=
  .obj [("email", encOpt Json.str p.email)]

def Person.fromJson (j : Json) : Option Person :=
  match j with
  | .obj fields => (optField fields "email" Json.asStr).map Person.mk
  | _ => none

/-- `Bot` from src/models/users.rs. -/
structure Bot where
  email : Option String
deriving DecidableEq

def Bot.toJson (b : Bot) : Json :=
  .obj [("email", encOpt Json.str b.email)]

def Bot.fromJson (j : Json) : Option Bot :=
  match j with
  | .obj fields => (optField fields "email" Json.asStr).map Bot.mk
  | _ => none

/-- `User` from src/models/users.rs: `#[serde(tag = "object",
rename_all = "snake_case")]` with a flattened `UserCommon` in each variant. -/
inductive User where
  | person (common : UserCommon) (person : Person)
  | bot (common : UserCommon) (bot : Bot)
  | user (common : UserCommon) (person : Option Person)
deriving DecidableEq

def User.toJson : User → Json
  | .person c p => .obj (("object", .str "person") :: c.jsonFields ++ [("person", p.toJson)])
  | .bot c b => .obj (("object", .str "bot") :: c.jsonFields ++ [("bot", b.toJson)])
  | .user c p => .obj (("object", .str "user") :: c.jsonFields ++ [("person", encOpt Person.toJson p)])

def User.fromJson (j : Json) : Option User :=
  match j with
  | .obj fields =>
    (reqField fields "object" Json.asStr).bind fun tag =>
    (UserCommon.fromFields fields).bind fun c =>
    match tag with
    | "person" => (reqField fields "person" Person.fromJson).map fun p => .person c p
    | "bot" => (reqField fields "bot" Bot.fromJson).map fun b => .bot c b
    | "user" => (optField fields "person" Person.fromJson).map fun p => .user c p
    | _ => none
  | _ => none

/-- `SelectedValue` from src/models/properties.rs: `id` and `name` carry
`skip_serializing_if = "Option::is_none"`; `color` is a plain required
field. -/
structure SelectedValue where
  id : Option SelectOptionId
  name : Option String
  color : Color
deriving DecidableEq

def SelectedValue.toJson (s : SelectedValue) : Json :=
  .obj (skipNoneField "id" SelectOptionId.toJson s.id ++
    skipNoneField "name" Json.str s.name ++ [("color", s.color.toJson)])

def SelectedValue.fromJson (j : Json) : Option SelectedValue :=
  match j with
  | .obj fields =>
    (optField fields "id" SelectOptionId.fromJson).bind fun i =>
    (optField fields "name" Json.asStr).bind fun n =>
    (reqField fields "color" Color.fromJson).map fun c => ⟨i, n, c⟩
  | _ => none

/-- `DateValue` from src/models/properties.rs (the `end` field is spelled
`end_` because `end` is a Lean keyword; its wire key stays "end"). -/
structure DateValue where
  start : DateOrDateTime
  end_ : Option DateOrDateTime
  time_zone : Option String
deriving DecidableEq

def DateValue.toJson (d : DateValue) : Json :=
  .obj [("start", d.start.toJson), ("end", encOpt DateOrDateTime.toJson d.end_),
    ("time_zone", encOpt Json.str d.time_zone)]

def DateValue.fromJson (j : Json) : Option DateValue :=
  match j with
  | .obj fields =>
    (reqField fields "start" DateOrDateTime.fromJson).bind fun s =>
    (optField fields "end" DateOrDateTime.fromJson).bind fun e =>
    (optField fields "time_zone" Json.asStr).map fun tz => ⟨s, e, tz⟩
  | _ => none

/-- `FormulaResultValue` from src/models/properties.rs:
`#[serde(tag = "type", rename_all = "snake_case")]`. -/
inductive FormulaResultValue where
  | string (string : Option String)
  | number (number : Option Number)
  | boolean (boolean : Option Bool)
  | date (date : Option DateValue)
deriving DecidableEq

def FormulaResultValue.toJson : FormulaResultValue → Json
  | .string s => .obj [("type", .str "string"), ("string", encOpt Json.str s)]
  | .number n => .obj [("type", .str "number"), ("number", encOpt Json.num n)]
  | .boolean b => .obj [("type", .str "boolean"), ("boolean", encOpt Json.bool b)]
  | .date d => .obj [("type", .str "date"), ("date", encOpt DateValue.toJson d)]

def FormulaResultValue.fromJson (j : Json) : Option FormulaResultValue :=
  match j with
  | .obj fields =>
    (reqField fields "type" Json.asStr).bind fun tag =>
    match tag with
    | "string" => (optField fields "string" Json.asStr).map .string
    | "number" => (optField fields "number" Json.asNum).map .number
    | "boolean" => (optField fields "boolean" Json.asBool).map .boolean
    | "date" => (optField fields "date" DateValue.fromJson).map .date
    | _ => none
  | _ => none

/-- `RelationValue` from src/models/properties.rs: a page reference. -/
structure RelationValue where
  id : PageId
deriving DecidableEq

def RelationValue.toJson (r : RelationValue) : Json :=
  .obj [("id", .str r.id.val)]

def RelationValue.fromJson (j : Json) : Option RelationValue :=
  match j with
  | .obj fields =>
    (reqField fields "id" (fun x => (x.asStr).map PageId.mk)).map RelationValue.mk
  | _ => none

/-- `External` from src/models/properties.rs. -/
structure External where
  url : String
deriving DecidableEq

def External.toJson (e : External) : Json := .obj [("url", .str e.url)]

def External.fromJson (j : Json) : Option External :=
  match j with
  | .obj fields => (reqField fields "url" Json.asStr).map External.mk
  | _ => none

/-- `File` from src/models/properties.rs. -/
structure File where
  url : String
  expiry_time : String
deriving DecidableEq

def File.toJson (f : File) : Json :=
  .obj [("url", .str f.url), ("expiry_time", .str f.expiry_time)]

def File.fromJson (j : Json) : Option File :=
  match j with
  | .obj fields =>
    (reqField fields "url" Json.asStr).bind fun u =>
    (reqField fields "expiry_time" Json.asStr).map fun t => ⟨u, t⟩
  | _ => none

/-- `FileReference` from src/models/properties.rs:
`#[serde(tag = "type", rename_all = "snake_case")]`. -/
inductive FileReference where
  | external (name : String) (external : External)
  | file (name : String) (file : File)
deriving DecidableEq

def FileReference.toJson : FileReference → Json
  | .external n e =>
    .obj [("type", .str "external"), ("name", .str n), ("external", e.toJson)]
  | .file n f => .obj [("type", .str "file"), ("name", .str n), ("file", f.toJson)]

def FileReference.fromJson (j : Json) : Option FileReference :=
  match j with
  | .obj fields =>
    (reqField fields "type" Json.asStr).bind fun tag =>
    (reqField fields "name" Json.asStr).bind fun n =>
    match tag with
    | "external" => (reqField fields "external" External.fromJson).map (.external n)
    | "file" => (reqField fields "file" File.fromJson).map (.file n)
    | _ => none
  | _ => none

theorem decOptJson_encOpt (enc : α → Json) (dec : Json → Option α)
    (h : ∀ x, dec (enc x) = some x) (hn : ∀ x, enc x ≠ Json.null) (o : Option α) :
    decOptJson dec (encOpt enc o) = some o := by
  cases o with
  | none => rfl
  | some x =>
    show decOptJson dec (enc x) = some (some x)
    unfold decOptJson
    split
    · rename_i hnull
      exact absurd hnull (hn x)
    · rw [h x]
      rfl

theorem decodeElems_map (dec : Json → Option α) (enc : α → Json)
    (h : ∀ x, dec (enc x) = some x) (xs : List α) :
    decodeElems dec (xs.map enc) = some xs := by
  induction xs with
  | nil => rfl
  | cons x rest ih => simp [decodeElems, h x, ih]

theorem decodeArr_map (dec : Json → Option α) (enc : α → Json)
    (h : ∀ x, dec (enc x) = some x) (xs : List α) :
    decodeArr dec (Json.arr (xs.map enc)) = some xs := by
  simp [decodeArr, decodeElems_map dec enc h]

theorem color_roundtrip (c : Color) : Color.fromJson c.toJson = some c := by
  cases c <;> rfl

theorem decOptStr (o : Option String) :
    decOptJson Json.asStr (encOpt Json.str o) = some o :=
  decOptJson_encOpt Json.str Json.asStr (fun _ => rfl) (fun _ h => by cases h) o

theorem decOptNum (o : Option Int) :
    decOptJson Json.asNum (encOpt Json.num o) = some o :=
  decOptJson_encOpt Json.num Json.asNum (fun _ => rfl) (fun _ h => by cases h) o

theorem decOptBool (o : Option Bool) :
    decOptJson Json.asBool (encOpt Json.bool o) = some o :=
  decOptJson_encOpt Json.bool Json.asBool (fun _ => rfl) (fun _ h => by cases h) o

theorem richText_roundtrip (r : RichText) : RichText.fromJson r.toJson = some r := by
  obtain ⟨t, h⟩ := r
  simp [RichText.toJson, RichText.fromJson, reqField, optField, Json.getField,
    Json.asStr, decOptStr]

theorem person_roundtrip (p : Person) : Person.fromJson p.toJson = some p := by
  obtain ⟨e⟩ := p
  simp [Person.toJson, Person.fromJson, optField, Json.getField, decOptStr]

theorem bot_roundtrip (b : Bot) : Bot.fromJson b.toJson = some b := by
  obtain ⟨e⟩ := b
  simp [Bot.toJson, Bot.fromJson, optField, Json.getField, decOptStr]

theorem person_toJson_ne_null (p : Person) : p.toJson ≠ Json.null := by
  simp [Person.toJson]

theorem user_roundtrip (u : User) : User.fromJson u.toJson = some u := by
  cases u with
  | person c p =>
    obtain ⟨⟨uid⟩, nm, av⟩ := c
    simp [User.toJson, User.fromJson, UserCommon.jsonFields, UserCommon.fromFields,
      reqField, optField, Json.getField, Json.asStr, decOptStr, person_roundtrip]
  | bot c b =>
    obtain ⟨⟨uid⟩, nm, av⟩ := c
    simp [User.toJson, User.fromJson, UserCommon.jsonFields, UserCommon.fromFields,
      reqField, optField, Json.getField, Json.asStr, decOptStr, bot_roundtrip]
  | user c p =>
    obtain ⟨⟨uid⟩, nm, av⟩ := c
    simp [User.toJson, User.fromJson, UserCommon.jsonFields, UserCommon.fromFields,
      reqField, optField, Json.getField, Json.asStr, decOptStr,
      decOptJson_encOpt Person.toJson Person.fromJson person_roundtrip
        person_toJson_ne_null]

theorem selectedValue_roundtrip (s : SelectedValue) :
    SelectedValue.fromJson s.toJson = some s := by
  obtain ⟨i, n, c⟩ := s
  cases i <;> cases n <;>
    simp [SelectedValue.toJson, SelectedValue.fromJson, skipNoneField, reqField,
      optField, Json.getField, Json.asStr, decOptJson, SelectOptionId.fromJson,
      SelectOptionId.toJson, color_roundtrip]

theorem dateOrDateTime_toJson_ne_null (v : DateOrDateTime) : v.toJson ≠ Json.null := by
  cases v <;> simp [DateOrDateTime.toJson, NaiveDate.toJson, DateTimeUtc.toJson]

theorem dateValue_roundtrip (d : DateValue) : DateValue.fromJson d.toJson = some d := by
  obtain ⟨s, e, tz⟩ := d
  simp [DateValue.toJson, DateValue.fromJson, reqField, optField, Json.getField,
    dateOrDateTime_roundtrip, decOptStr,
    decOptJson_encOpt DateOrDateTime.toJson DateOrDateTime.fromJson
      dateOrDateTime_roundtrip dateOrDateTime_toJson_ne_null]

theorem dateValue_toJson_ne_null (d : DateValue) : d.toJson ≠ Json.null := by
  simp [DateValue.toJson]

theorem formulaResultValue_roundtrip (v : FormulaResultValue) :
    FormulaResultValue.fromJson v.toJson = some v := by
  cases v <;>
    simp [FormulaResultValue.toJson, FormulaResultValue.fromJson, reqField, optField,
      Json.getField, Json.asStr, decOptStr, decOptNum, decOptBool,
      decOptJson_encOpt DateValue.toJson DateValue.fromJson dateValue_roundtrip
        dateValue_toJson_ne_null]

theorem relationValue_roundtrip (r : RelationValue) :
    RelationValue.fromJson r.toJson = some r := by
  obtain ⟨⟨p⟩⟩ := r
  simp [RelationValue.toJson, RelationValue.fromJson, reqField, Json.getField,
    Json.asStr]

theorem external_roundtrip (e : External) : External.fromJson e.toJson = some e := by
  obtain ⟨u⟩ := e
  simp [External.toJson, External.fromJson, reqField, Json.getField, Json.asStr]

theorem file_roundtrip (f : File) : File.fromJson f.toJson = some f := by
  obtain ⟨u, t⟩ := f
  simp [File.toJson, File.fromJson, reqField, Json.getField, Json.asStr]

theorem fileReference_roundtrip (f : FileReference) :
    FileReference.fromJson f.toJson = some f := by
  cases f <;>
    simp [FileReference.toJson, FileReference.fromJson, reqField, Json.getField,
      Json.asStr, external_roundtrip, file_roundtrip]

/-- Encode a `Vec<T>` as a JSON array. -/
def encArr (enc : α → Json) (xs : List α) : Json := .arr (xs.map enc)

mutual

/-- `RollupValue` from src/models/properties.rs:
`#[serde(tag = "type", rename_all = "snake_case")]`; mutually recursive
with `RollupPropertyValue` through `Array(Vec<RollupPropertyValue>)`. -/
inductive RollupValue where
  | number (number : Option Number) : RollupValue
  | date (date : Option DateTimeUtc) : RollupValue
  | array (array : List RollupPropertyValue) : RollupValue

/-- `RollupPropertyValue` from src/models/properties.rs:
`#[serde(tag = "type", rename_all = "snake_case")]` with the `Text` element
renamed to wire tag `rich_text`; a parallel of `PropertyValue` without the
wrapping ids, used only inside rollup arrays. Note its `phone_number`
payload is a required `String`, unlike the top-level
`PropertyValue::PhoneNumber` which carries `Option<String>`. -/
inductive RollupPropertyValue where
  | text (rich_text : List RichText) : RollupPropertyValue
  | number (number : Option Number) : RollupPropertyValue
  | select (select : Option SelectedValue) : RollupPropertyValue
  | status (status : Option SelectedValue) : RollupPropertyValue
  | multiSelect (multi_select : Option (List SelectedValue)) : RollupPropertyValue
  | date (date : Option DateValue) : RollupPropertyValue
  | formula (formula : FormulaResultValue) : RollupPropertyValue
  | relation (relation : Option (List RelationValue)) : RollupPropertyValue
  | rollup (rollup : Option RollupValue) : RollupPropertyValue
  | people (people : List User) : RollupPropertyValue
  | files (files : Option (List FileReference)) : RollupPropertyValue
  | checkbox (checkbox : Bool) : RollupPropertyValue
  | url (url : Option String) : RollupPropertyValue
  | email (email : Option String) : RollupPropertyValue
  | phoneNumber (phone_number : String) : RollupPropertyValue
  | createdTime (created_time : DateTimeUtc) : RollupPropertyValue
  | createdBy (created_by : User) : RollupPropertyValue
  | lastEditedTime (last_edited_time : DateTimeUtc) : RollupPropertyValue
  | lastEditedBy (last_edited_by : User) : RollupPropertyValue

end

mutual

def RollupValue.toJson : RollupValue → Json
  | .number n => .obj [("type", .str "number"), ("number", encOpt Json.num n)]
  | .date d => .obj [("type", .str "date"), ("date", encOpt DateTimeUtc.toJson d)]
  | .array xs => .obj [("type", .str "array"), ("array", .arr (encodeRollupElems xs))]

def RollupPropertyValue.toJson : RollupPropertyValue → Json
  | .text rts =>
    .obj [("type", .str "rich_text"), ("rich_text", encArr RichText.toJson rts)]
  | .number n => .obj [("type", .str "number"), ("number", encOpt Json.num n)]
  | .select s =>
    .obj [("type", .str "select"), ("select", encOpt SelectedValue.toJson s)]
  | .status s =>
    .obj [("type", .str "status"), ("status", encOpt SelectedValue.toJson s)]
  | .multiSelect m =>
    .obj [("type", .str "multi_select"),
      ("multi_select", encOpt (encArr SelectedValue.toJson) m)]
  | .date d => .obj [("type", .str "date"), ("date", encOpt DateValue.toJson d)]
  | .formula f => .obj [("type", .str "formula"), ("formula", f.toJson)]
  | .relation r =>
    .obj [("type", .str "relation"),
      ("relation", encOpt (encArr RelationValue.toJson) r)]
  | .rollup r =>
    .obj [("type", .str "rollup"),
      ("rollup", match r with | none => Json.null | some rv => rv.toJson)]
  | .people ps => .obj [("type", .str "people"), ("people", encArr User.toJson ps)]
  | .files fs =>
    .obj [("type", .str "files"), ("files", encOpt (encArr FileReference.toJson) fs)]
  | .checkbox b => .obj [("type", .str "checkbox"), ("checkbox", .bool b)]
  | .url u => .obj [("type", .str "url"), ("url", encOpt Json.str u)]
  | .email e => .obj [("type", .str "email"), ("email", encOpt Json.str e)]
  | .phoneNumber p =>
    .obj [("type", .str "phone_number"), ("phone_number", .str p)]
  | .createdTime t => .obj [("type", .str "created_time"), ("created_time", t.toJson)]
  | .createdBy u => .obj [("type", .str "created_by"), ("created_by", u.toJson)]
  | .lastEditedTime t =>
    .obj [("type", .str "last_edited_time"), ("last_edited_time", t.toJson)]
  | .lastEditedBy u =>
    .obj [("type", .str "last_edited_by"), ("last_edited_by", u.toJson)]

def encodeRollupElems : List RollupPropertyValue → List Json
  | [] => []
  | x :: rest => x.toJson :: encodeRollupElems rest

end

theorem sizeOf_getField {fields : List (String × Json)} {key : String} {j : Json}
    (h : Json.getField fields key = some j) : sizeOf j < sizeOf fields := by
  induction fields with
  | nil => cases h
  | cons kv rest ih =>
    obtain ⟨k, v⟩ := kv
    unfold Json.getField at h
    split at h
    · cases h
      simp
      omega
    · have := ih h
      simp
      omega

/-- The non-recursive arms of `RollupPropertyValue`'s deserializer: every
wire tag except `rollup` (which recurses back into `RollupValue` and lives
in `RollupPropertyValue.fromJson`); split out so the mutually recursive
core stays small. Semantically this is the single 19-arm tag dispatch of
the serde derive on `RollupPropertyValue`. -/
def decodeRollupPVOther (fields : List (String × Json)) (tag : String) :
    Option RollupPropertyValue :=
  if tag = "rich_text" then
    (reqField fields "rich_text" (decodeArr RichText.fromJson)).map .text
  else if tag = "number" then (optField fields "number" Json.asNum).map .number
  else if tag = "select" then
    (optField fields "select" SelectedValue.fromJson).map .select
  else if tag = "status" then
    (optField fields "status" SelectedValue.fromJson).map .status
  else if tag = "multi_select" then
    (optField fields "multi_select" (decodeArr SelectedValue.fromJson)).map
      .multiSelect
  else if tag = "date" then (optField fields "date" DateValue.fromJson).map .date
  else if tag = "formula" then
    (reqField fields "formula" FormulaResultValue.fromJson).map .formula
  else if tag = "relation" then
    (optField fields "relation" (decodeArr RelationValue.fromJson)).map .relation
  else if tag = "people" then
    (reqField fields "people" (decodeArr User.fromJson)).map .people
  else if tag = "files" then
    (optField fields "files" (decodeArr FileReference.fromJson)).map .files
  else if tag = "checkbox" then
    (reqField fields "checkbox" Json.asBool).map .checkbox
  else if tag = "url" then (optField fields "url" Json.asStr).map .url
  else if tag = "email" then (optField fields "email" Json.asStr).map .email
  else if tag = "phone_number" then
    (reqField fields "phone_number" Json.asStr).map .phoneNumber
  else if tag = "created_time" then
    (reqField fields "created_time" DateTimeUtc.fromJson).map .createdTime
  else if tag = "created_by" then
    (reqField fields "created_by" User.fromJson).map .createdBy
  else if tag = "last_edited_time" then
    (reqField fields "last_edited_time" DateTimeUtc.fromJson).map .lastEditedTime
  else if tag = "last_edited_by" then
    (reqField fields "last_edited_by" User.fromJson).map .lastEditedBy
  else none

mutual

def RollupValue.fromJson (j : Json) : Option RollupValue :=
  match j with
  | .obj fields =>
    (reqField fields "type" Json.asStr).bind fun tag =>
    if tag = "number" then (optField fields "number" Json.asNum).map .number
    else if tag = "date" then
      (optField fields "date" DateTimeUtc.fromJson).map .date
    else if tag = "array" then
      match h : Json.getField fields "array" with
      | some (.arr elems) => (decodeRollupElems elems).map .array
      | _ => none
    else none
  | _ => none
termination_by sizeOf j
decreasing_by
  simp_wf
  have := sizeOf_getField h
  simp at this
  omega

def RollupPropertyValue.fromJson (j : Json) : Option RollupPropertyValue :=
  match j with
  | .obj fields =>
    (reqField fields "type" Json.asStr).bind fun tag =>
    if tag = "rollup" then
      match h : Json.getField fields "rollup" with
      | none => some (.rollup none)
      | some .null => some (.rollup none)
      | some jr => (RollupValue.fromJson jr).map fun rv => .rollup (some rv)
    else decodeRollupPVOther fields tag
  | _ => none
termination_by sizeOf j
decreasing_by
  simp_wf
  have := sizeOf_getField h
  simp at this
  omega

def decodeRollupElems : List Json → Option (List RollupPropertyValue)
  | [] => some []
  | j :: rest =>
    (RollupPropertyValue.fromJson j).bind fun x =>
    (decodeRollupElems rest).map fun xs => x :: xs
termination_by l => sizeOf l
decreasing_by
  all_goals simp_wf
  all_goals omega

end

theorem encArr_ne_null (enc : α → Json) (xs : List α) : encArr enc xs ≠ Json.null := by
  simp [encArr]

theorem decOptArr (dec : Json → Option α) (enc : α → Json)
    (h : ∀ x, dec (enc x) = some x) (o : Option (List α)) :
    decOptJson (decodeArr dec) (encOpt (encArr enc) o) = some o :=
  decOptJson_encOpt (encArr enc) (decodeArr dec)
    (fun xs => by simpa [encArr] using decodeArr_map dec enc h xs)
    (encArr_ne_null enc) o

theorem dateTimeUtc_toJson_ne_null (t : DateTimeUtc) : t.toJson ≠ Json.null := by
  simp [DateTimeUtc.toJson]

theorem selectedValue_toJson_ne_null (s : SelectedValue) : s.toJson ≠ Json.null := by
  simp [SelectedValue.toJson]

theorem user_toJson_ne_null (u : User) : u.toJson ≠ Json.null := by
  cases u <;> simp [User.toJson]

theorem rollupValue_toJson_ne_null (v : RollupValue) : v.toJson ≠ Json.null := by
  cases v <;> simp [RollupValue.toJson]

set_option maxHeartbeats 1000000 in
mutual

theorem rollupValue_roundtrip (v : RollupValue) :
    RollupValue.fromJson v.toJson = some v := by
  cases v with
  | number n =>
    simp [RollupValue.toJson, RollupValue.fromJson, reqField, optField,
      Json.getField, Json.asStr, decOptNum]
  | date d =>
    simp [RollupValue.toJson, RollupValue.fromJson, reqField, optField,
      Json.getField, Json.asStr,
      decOptJson_encOpt DateTimeUtc.toJson DateTimeUtc.fromJson dateTimeUtc_roundtrip
        dateTimeUtc_toJson_ne_null]
  | array xs =>
    simp [RollupValue.toJson, RollupValue.fromJson, reqField, Json.getField,
      Json.asStr, decodeRollupElems_enc xs]

theorem rollupPropertyValue_roundtrip (x : RollupPropertyValue) :
    RollupPropertyValue.fromJson x.toJson = some x := by
  cases x with
  | text rts =>
    simp [RollupPropertyValue.toJson, RollupPropertyValue.fromJson,
      decodeRollupPVOther, reqField,
      Json.getField, Json.asStr, encArr,
      decodeArr_map RichText.fromJson RichText.toJson richText_roundtrip]
  | number n =>
    simp [RollupPropertyValue.toJson, RollupPropertyValue.fromJson,
      decodeRollupPVOther, reqField,
      optField, Json.getField, Json.asStr, decOptNum]
  | select s =>
    simp [RollupPropertyValue.toJson, RollupPropertyValue.fromJson,
      decodeRollupPVOther, reqField,
      optField, Json.getField, Json.asStr,
      decOptJson_encOpt SelectedValue.toJson SelectedValue.fromJson
        selectedValue_roundtrip selectedValue_toJson_ne_null]
  | status s =>
    simp [RollupPropertyValue.toJson, RollupPropertyValue.fromJson,
      decodeRollupPVOther, reqField,
      optField, Json.getField, Json.asStr,
      decOptJson_encOpt SelectedValue.toJson SelectedValue.fromJson
        selectedValue_roundtrip selectedValue_toJson_ne_null]
  | multiSelect m =>
    simp [RollupPropertyValue.toJson, RollupPropertyValue.fromJson,
      decodeRollupPVOther, reqField,
      optField, Json.getField, Json.asStr,
      decOptArr SelectedValue.fromJson SelectedValue.toJson selectedValue_roundtrip]
  | date d =>
    simp [RollupPropertyValue.toJson, RollupPropertyValue.fromJson,
      decodeRollupPVOther, reqField,
      optField, Json.getField, Json.asStr,
      decOptJson_encOpt DateValue.toJson DateValue.fromJson dateValue_roundtrip
        dateValue_toJson_ne_null]
  | formula f =>
    simp [RollupPropertyValue.toJson, RollupPropertyValue.fromJson,
      decodeRollupPVOther, reqField,
      Json.getField, Json.asStr, formulaResultValue_roundtrip]
  | relation r =>
    simp [RollupPropertyValue.toJson, RollupPropertyValue.fromJson,
      decodeRollupPVOther, reqField,
      optField, Json.getField, Json.asStr,
      decOptArr RelationValue.fromJson RelationValue.toJson relationValue_roundtrip]
  | rollup r =>
    cases r with
    | none =>
      simp [RollupPropertyValue.toJson, RollupPropertyValue.fromJson,
      decodeRollupPVOther, reqField,
        Json.getField, Json.asStr]
    | some rv =>
      have hrv := rollupValue_roundtrip rv
      have hne := rollupValue_toJson_ne_null rv
      simp only [RollupPropertyValue.toJson, RollupPropertyValue.fromJson,
        reqField, Json.getField, Json.asStr]
      cases hj : rv.toJson with
      | null => exact absurd hj hne
      | _ =>
        rw [hj] at hrv
        simp [hrv]
  | people ps =>
    simp [RollupPropertyValue.toJson, RollupPropertyValue.fromJson,
      decodeRollupPVOther, reqField,
      Json.getField, Json.asStr, encArr,
      decodeArr_map User.fromJson User.toJson user_roundtrip]
  | files fs =>
    simp [RollupPropertyValue.toJson, RollupPropertyValue.fromJson,
      decodeRollupPVOther, reqField,
      optField, Json.getField, Json.asStr,
      decOptArr FileReference.fromJson FileReference.toJson fileReference_roundtrip]
  | checkbox b =>
    simp [RollupPropertyValue.toJson, RollupPropertyValue.fromJson,
      decodeRollupPVOther, reqField,
      Json.getField, Json.asStr, Json.asBool]
  | url u =>
    simp [RollupPropertyValue.toJson, RollupPropertyValue.fromJson,
      decodeRollupPVOther, reqField,
      optField, Json.getField, Json.asStr, decOptStr]
  | email e =>
    simp [RollupPropertyValue.toJson, RollupPropertyValue.fromJson,
      decodeRollupPVOther, reqField,
      optField, Json.getField, Json.asStr, decOptStr]
  | phoneNumber p =>
    simp [RollupPropertyValue.toJson, RollupPropertyValue.fromJson,
      decodeRollupPVOther, reqField,
      Json.getField, Json.asStr]
  | createdTime t =>
    simp [RollupPropertyValue.toJson, RollupPropertyValue.fromJson,
      decodeRollupPVOther, reqField,
      Json.getField, Json.asStr, dateTimeUtc_roundtrip]
  | createdBy u =>
    simp [RollupPropertyValue.toJson, RollupPropertyValue.fromJson,
      decodeRollupPVOther, reqField,
      Json.getField, Json.asStr, user_roundtrip]
  | lastEditedTime t =>
    simp [RollupPropertyValue.toJson, RollupPropertyValue.fromJson,
      decodeRollupPVOther, reqField,
      Json.getField, Json.asStr, dateTimeUtc_roundtrip]
  | lastEditedBy u =>
    simp [RollupPropertyValue.toJson, RollupPropertyValue.fromJson,
      decodeRollupPVOther, reqField,
      Json.getField, Json.asStr, user_roundtrip]

theorem decodeRollupElems_enc (xs : List RollupPropertyValue) :
    decodeRollupElems (encodeRollupElems xs) = some xs := by
  cases xs with
  | nil => simp [encodeRollupElems, decodeRollupElems]
  | cons x rest =>
    simp [encodeRollupElems, decodeRollupElems, rollupPropertyValue_roundtrip x,
      decodeRollupElems_enc rest]

end

/-- `PropertyValue` from src/models/properties.rs: the 21-variant tagged
union of page property values, `#[serde(tag = "type",
rename_all = "snake_case")]`, every variant carrying a flat
`id: PropertyId`, with the `Text` variant renamed to wire tag
`rich_text`. -/
inductive PropertyValue where
  | title (id : PropertyId) (title : List RichText)
  | text (id : PropertyId) (rich_text : List RichText)
  | number (id : PropertyId) (number : Option Number)
  | select (id : PropertyId) (select : Option SelectedValue)
  | status (id : PropertyId) (status : Option SelectedValue)
  | multiSelect (id : PropertyId) (multi_select : Option (List SelectedValue))
  | date (id : PropertyId) (date : Option DateValue)
  | formula (id : PropertyId) (formula : FormulaResultValue)
  | relation (id : PropertyId) (relation : Option (List RelationValue))
  | rollup (id : PropertyId) (rollup : Option RollupValue)
  | people (id : PropertyId) (people : List User)
  | files (id : PropertyId) (files : Option (List FileReference))
  | checkbox (id : PropertyId) (checkbox : Bool)
  | url (id : PropertyId) (url : Option String)
  | email (id : PropertyId) (email : Option String)
  | phoneNumber (id : PropertyId) (phone_number : Option String)
  | createdTime (id : PropertyId) (created_time : DateTimeUtc)
  | createdBy (id : PropertyId) (created_by : User)
  | lastEditedTime (id : PropertyId) (last_edited_time : DateTimeUtc)
  | lastEditedBy (id : PropertyId) (last_edited_by : User)
  | button (id : PropertyId)

def PropertyValue.toJson : PropertyValue → Json
  | .title i t =>
    .obj [("type", .str "title"), ("id", .str i.val), ("title", encArr RichText.toJson t)]
  | .text i rt =>
    .obj [("type", .str "rich_text"), ("id", .str i.val),
      ("rich_text", encArr RichText.toJson rt)]
  | .number i n =>
    .obj [("type", .str "number"), ("id", .str i.val), ("number", encOpt Json.num n)]
  | .select i s =>
    .obj [("type", .str "select"), ("id", .str i.val),
      ("select", encOpt SelectedValue.toJson s)]
  | .status i s =>
    .obj [("type", .str "status"), ("id", .str i.val),
      ("status", encOpt SelectedValue.toJson s)]
  | .multiSelect i m =>
    .obj [("type", .str "multi_select"), ("id", .str i.val),
      ("multi_select", encOpt (encArr SelectedValue.toJson) m)]
  | .date i d =>
    .obj [("type", .str "date"), ("id", .str i.val),
      ("date", encOpt DateValue.toJson d)]
  | .formula i f =>
    .obj [("type", .str "formula"), ("id", .str i.val), ("formula", f.toJson)]
  | .relation i r =>
    .obj [("type", .str "relation"), ("id", .str i.val),
      ("relation", encOpt (encArr RelationValue.toJson) r)]
  | .rollup i r =>
    .obj [("type", .str "rollup"), ("id", .str i.val),
      ("rollup", encOpt RollupValue.toJson r)]
  | .people i ps =>
    .obj [("type", .str "people"), ("id", .str i.val),
      ("people", encArr User.toJson ps)]
  | .files i fs =>
    .obj [("type", .str "files"), ("id", .str i.val),
      ("files", encOpt (encArr FileReference.toJson) fs)]
  | .checkbox i b =>
    .obj [("type", .str "checkbox"), ("id", .str i.val), ("checkbox", .bool b)]
  | .url i u =>
    .obj [("type", .str "url"), ("id", .str i.val), ("url", encOpt Json.str u)]
  | .email i e =>
    .obj [("type", .str "email"), ("id", .str i.val), ("email", encOpt Json.str e)]
  | .phoneNumber i p =>
    .obj [("type", .str "phone_number"), ("id", .str i.val),
      ("phone_number", encOpt Json.str p)]
  | .createdTime i t =>
    .obj [("type", .str "created_time"), ("id", .str i.val),
      ("created_time", t.toJson)]
  | .createdBy i u =>
    .obj [("type", .str "created_by"), ("id", .str i.val), ("created_by", u.toJson)]
  | .lastEditedTime i t =>
    .obj [("type", .str "last_edited_time"), ("id", .str i.val),
      ("last_edited_time", t.toJson)]
  | .lastEditedBy i u =>
    .obj [("type", .str "last_edited_by"), ("id", .str i.val),
      ("last_edited_by", u.toJson)]
  | .button i => .obj [("type", .str "button"), ("id", .str i.val)]

def PropertyValue.fromJson (j : Json) : Option PropertyValue :=
  match j with
  | .obj fields =>
    (reqField fields "type" Json.asStr).bind fun tag =>
    (reqField fields "id" (fun x => (x.asStr).map PropertyId.mk)).bind fun i =>
    if tag = "title" then
      (reqField fields "title" (decodeArr RichText.fromJson)).map (.title i)
    else if tag = "rich_text" then
      (reqField fields "rich_text" (decodeArr RichText.fromJson)).map (.text i)
    else if tag = "number" then (optField fields "number" Json.asNum).map (.number i)
    else if tag = "select" then
      (optField fields "select" SelectedValue.fromJson).map (.select i)
    else if tag = "status" then
      (optField fields "status" SelectedValue.fromJson).map (.status i)
    else if tag = "multi_select" then
      (optField fields "multi_select" (decodeArr SelectedValue.fromJson)).map
        (.multiSelect i)
    else if tag = "date" then (optField fields "date" DateValue.fromJson).map (.date i)
    else if tag = "formula" then
      (reqField fields "formula" FormulaResultValue.fromJson).map (.formula i)
    else if tag = "relation" then
      (optField fields "relation" (decodeArr RelationValue.fromJson)).map (.relation i)
    else if tag = "rollup" then
      (optField fields "rollup" RollupValue.fromJson).map (.rollup i)
    else if tag = "people" then
      (reqField fields "people" (decodeArr User.fromJson)).map (.people i)
    else if tag = "files" then
      (optField fields "files" (decodeArr FileReference.fromJson)).map (.files i)
    else if tag = "checkbox" then
      (reqField fields "checkbox" Json.asBool).map (.checkbox i)
    else if tag = "url" then (optField fields "url" Json.asStr).map (.url i)
    else if tag = "email" then (optField fields "email" Json.asStr).map (.email i)
    else if tag = "phone_number" then
      (optField fields "phone_number" Json.asStr).map (.phoneNumber i)
    else if tag = "created_time" then
      (reqField fields "created_time" DateTimeUtc.fromJson).map (.createdTime i)
    else if tag = "created_by" then
      (reqField fields "created_by" User.fromJson).map (.createdBy i)
    else if tag = "last_edited_time" then
      (reqField fields "last_edited_time" DateTimeUtc.fromJson).map
        (.lastEditedTime i)
    else if tag = "last_edited_by" then
      (reqField fields "last_edited_by" User.fromJson).map (.lastEditedBy i)
    else if tag = "button" then some (.button i)
    else none
  | _ => none

set_option maxHeartbeats 1000000 in
theorem propertyValue_roundtrip (v : PropertyValue) :
    PropertyValue.fromJson v.toJson = some v := by
  cases v with
  | title i t =>
    simp [PropertyValue.toJson, PropertyValue.fromJson, reqField, Json.getField,
      Json.asStr, encArr,
      decodeArr_map RichText.fromJson RichText.toJson richText_roundtrip]
  | text i rt =>
    simp [PropertyValue.toJson, PropertyValue.fromJson, reqField, Json.getField,
      Json.asStr, encArr,
      decodeArr_map RichText.fromJson RichText.toJson richText_roundtrip]
  | number i n =>
    simp [PropertyValue.toJson, PropertyValue.fromJson, reqField, optField,
      Json.getField, Json.asStr, decOptNum]
  | select i s =>
    simp [PropertyValue.toJson, PropertyValue.fromJson, reqField, optField,
      Json.getField, Json.asStr,
      decOptJson_encOpt SelectedValue.toJson SelectedValue.fromJson
        selectedValue_roundtrip selectedValue_toJson_ne_null]
  | status i s =>
    simp [PropertyValue.toJson, PropertyValue.fromJson, reqField, optField,
      Json.getField, Json.asStr,
      decOptJson_encOpt SelectedValue.toJson SelectedValue.fromJson
        selectedValue_roundtrip selectedValue_toJson_ne_null]
  | multiSelect i m =>
    simp [PropertyValue.toJson, PropertyValue.fromJson, reqField, optField,
      Json.getField, Json.asStr,
      decOptArr SelectedValue.fromJson SelectedValue.toJson selectedValue_roundtrip]
  | date i d =>
    simp [PropertyValue.toJson, PropertyValue.fromJson, reqField, optField,
      Json.getField, Json.asStr,
      decOptJson_encOpt DateValue.toJson DateValue.fromJson dateValue_roundtrip
        dateValue_toJson_ne_null]
  | formula i f =>
    simp [PropertyValue.toJson, PropertyValue.fromJson, reqField, Json.getField,
      Json.asStr, formulaResultValue_roundtrip]
  | relation i r =>
    simp [PropertyValue.toJson, PropertyValue.fromJson, reqField, optField,
      Json.getField, Json.asStr,
      decOptArr RelationValue.fromJson RelationValue.toJson relationValue_roundtrip]
  | rollup i r =>
    simp [PropertyValue.toJson, PropertyValue.fromJson, reqField, optField,
      Json.getField, Json.asStr,
      decOptJson_encOpt RollupValue.toJson RollupValue.fromJson rollupValue_roundtrip
        rollupValue_toJson_ne_null]
  | people i ps =>
    simp [PropertyValue.toJson, PropertyValue.fromJson, reqField, Json.getField,
      Json.asStr, encArr, decodeArr_map User.fromJson User.toJson user_roundtrip]
  | files i fs =>
    simp [PropertyValue.toJson, PropertyValue.fromJson, reqField, optField,
      Json.getField, Json.asStr,
      decOptArr FileReference.fromJson FileReference.toJson fileReference_roundtrip]
  | checkbox i b =>
    simp [PropertyValue.toJson, PropertyValue.fromJson, reqField, Json.getField,
      Json.asStr, Json.asBool]
  | url i u =>
    simp [PropertyValue.toJson, PropertyValue.fromJson, reqField, optField,
      Json.getField, Json.asStr, decOptStr]
  | email i e =>
    simp [PropertyValue.toJson, PropertyValue.fromJson, reqField, optField,
      Json.getField, Json.asStr, decOptStr]
  | phoneNumber i p =>
    simp [PropertyValue.toJson, PropertyValue.fromJson, reqField, optField,
      Json.getField, Json.asStr, decOptStr]
  | createdTime i t =>
    simp [PropertyValue.toJson, PropertyValue.fromJson, reqField, Json.getField,
      Json.asStr, dateTimeUtc_roundtrip]
  | createdBy i u =>
    simp [PropertyValue.toJson, PropertyValue.fromJson, reqField, Json.getField,
      Json.asStr, user_roundtrip]
  | lastEditedTime i t =>
    simp [PropertyValue.toJson, PropertyValue.fromJson, reqField, Json.getField,
      Json.asStr, dateTimeUtc_roundtrip]
  | lastEditedBy i u =>
    simp [PropertyValue.toJson, PropertyValue.fromJson, reqField, Json.getField,
      Json.asStr, user_roundtrip]
  | button i =>
    simp [PropertyValue.toJson, PropertyValue.fromJson, reqField, Json.getField,
      Json.asStr]

/-- `PropertyValue::id()` from src/models/properties.rs: the uniform id
accessor across all 21 variants. -/
def PropertyValue.id : PropertyValue → PropertyId
  | .title i _ => i
  | .text i _ => i
  | .number i _ => i
  | .select i _ => i
  | .status i _ => i
  | .multiSelect i _ => i
  | .date i _ => i
  | .formula i _ => i
  | .relation i _ => i
  | .rollup i _ => i
  | .people i _ => i
  | .files i _ => i
  | .checkbox i _ => i
  | .url i _ => i
  | .email i _ => i
  | .phoneNumber i _ => i
  | .createdTime i _ => i
  | .createdBy i _ => i
  | .lastEditedTime i _ => i
  | .lastEditedBy i _ => i
  | .button i => i

/-- `PropertyValue::type_name()` from src/models/properties.rs. -/
def PropertyValue.type_name : PropertyValue → String
  | .title _ _ => "Title"
  | .text _ _ => "Text"
  | .number _ _ => "Number"
  | .select _ _ => "Select"
  | .status _ _ => "Status"
  | .multiSelect _ _ => "MultiSelect"
  | .date _ _ => "Date"
  | .people _ _ => "People"
  | .files _ _ => "Files"
  | .checkbox _ _ => "Checkbox"
  | .url _ _ => "Url"
  | .email _ _ => "Email"
  | .phoneNumber _ _ => "PhoneNumber"
  | .formula _ _ => "Formula"
  | .relation _ _ => "Relation"
  | .rollup _ _ => "Rollup"
  | .createdTime _ _ => "CreatedTime"
  | .createdBy _ _ => "CreatedBy"
  | .lastEditedTime _ _ => "LastEditedTime"
  | .lastEditedBy _ _ => "LastEditedBy"
  | .button _ => "Button"

/-- `WrongPropertyTypeError` from src/models/properties.rs. -/
structure WrongPropertyTypeError where
  expected : List String
  actual : String
deriving DecidableEq

/-- The `FromPropertyValue` trait from src/models/properties.rs: an open
capability a target type implements ("can be constructed from a property
value"). -/
class FromPropertyValue (α : Type) where
  from_property_value : PropertyValue → Except WrongPropertyTypeError α

/-- `impl FromPropertyValue for Vec<RichText>`: accepts Title and Text. -/
instance instFromPVRichTexts : FromPropertyValue (List RichText) where
  from_property_value v :=
    match v with
    | .title _ t => .ok t
    | .text _ rt => .ok rt
    | _ => .error ⟨["Title", "Text"], v.type_name⟩

/-- `impl FromPropertyValue for Option<Number>`: accepts Number. -/
instance instFromPVOptNumber : FromPropertyValue (Option Number) where
  from_property_value v :=
    match v with
    | .number _ n => .ok n
    | _ => .error ⟨["Number"], v.type_name⟩

/-- `impl FromPropertyValue for Option<SelectedValue>`: accepts Select and
Status. -/
instance instFromPVOptSelected : FromPropertyValue (Option SelectedValue) where
  from_property_value v :=
    match v with
    | .select _ s => .ok s
    | .status _ s => .ok s
    | _ => .error ⟨["Select", "Status"], v.type_name⟩

/-- `impl FromPropertyValue for Option<Vec<SelectedValue>>`: accepts
MultiSelect. -/
instance instFromPVOptSelectedList : FromPropertyValue (Option (List SelectedValue)) where
  from_property_value v :=
    match v with
    | .multiSelect _ m => .ok m
    | _ => .error ⟨["MultiSelect"], v.type_name⟩

/-- `impl FromPropertyValue for Option<DateValue>`: accepts Date. -/
instance instFromPVOptDate : FromPropertyValue (Option DateValue) where
  from_property_value v :=
    match v with
    | .date _ d => .ok d
    | _ => .error ⟨["Date"], v.type_name⟩

/-- `impl FromPropertyValue for FormulaResultValue`: accepts Formula. -/
instance instFromPVFormula : FromPropertyValue FormulaResultValue where
  from_property_value v :=
    match v with
    | .formula _ f => .ok f
    | _ => .error ⟨["Formula"], v.type_name⟩

/-- `impl FromPropertyValue for Option<Vec<RelationValue>>`: accepts
Relation. -/
instance instFromPVOptRelation : FromPropertyValue (Option (List RelationValue)) where
  from_property_value v :=
    match v with
    | .relation _ r => .ok r
    | _ => .error ⟨["Relation"], v.type_name⟩

/-- `impl FromPropertyValue for Option<Vec<FileReference>>`: accepts
Files. -/
instance instFromPVOptFiles : FromPropertyValue (Option (List FileReference)) where
  from_property_value v :=
    match v with
    | .files _ f => .ok f
    | _ => .error ⟨["Files"], v.type_name⟩

/-- `impl FromPropertyValue for bool`: accepts Checkbox. -/
instance instFromPVBool : FromPropertyValue Bool where
  from_property_value v :=
    match v with
    | .checkbox _ b => .ok b
    | _ => .error ⟨["Checkbox"], v.type_name⟩

/-- `impl FromPropertyValue for Option<String>`: accepts Url, Email and
PhoneNumber. -/
instance instFromPVOptString : FromPropertyValue (Option String) where
  from_property_value v :=
    match v with
    | .url _ u => .ok u
    | .email _ e => .ok e
    | .phoneNumber _ p => .ok p
    | _ => .error ⟨["Url", "Email", "PhoneNumber"], v.type_name⟩

/-- `impl FromPropertyValue for DateTime<Utc>`: accepts CreatedTime and
LastEditedTime. -/
instance instFromPVDateTime : FromPropertyValue DateTimeUtc where
  from_property_value v :=
    match v with
    | .createdTime _ t => .ok t
    | .lastEditedTime _ t => .ok t
    | _ => .error ⟨["CreatedTime", "LastEditedTime"], v.type_name⟩

/-- `impl FromPropertyValue for User`: accepts CreatedBy and
LastEditedBy. -/
instance instFromPVUser : FromPropertyValue User where
  from_property_value v :=
    match v with
    | .createdBy _ u => .ok u
    | .lastEditedBy _ u => .ok u
    | _ => .error ⟨["CreatedBy", "LastEditedBy"], v.type_name⟩

/-- `impl FromPropertyValue for Option<Vec<User>>`: accepts People, always
wrapping the people list in `Some`. -/
instance instFromPVOptUsers : FromPropertyValue (Option (List User)) where
  from_property_value v :=
    match v with
    | .people _ ps => .ok (some ps)
    | _ => .error ⟨["People"], v.type_name⟩

/-- `impl FromPropertyValue for Option<RollupValue>`: accepts Rollup. -/
instance instFromPVOptRollup : FromPropertyValue (Option RollupValue) where
  from_property_value v :=
    match v with
    | .rollup _ r => .ok r
    | _ => .error ⟨["Rollup"], v.type_name⟩

/-- `PropertyValue::expect_value::<T>()` from src/models/properties.rs:
convert the stored variant's payload into the caller-requested type `T`
through its `FromPropertyValue` capability. -/
def PropertyValue.expect_value (α : Type) [FromPropertyValue α]
    (v : PropertyValue) : Except WrongPropertyTypeError α :=
  FromPropertyValue.from_property_value v

def PropertyValue.expect_title (v : PropertyValue) :
    Except WrongPropertyTypeError (List RichText) :=
  match v with
  | .title _ _ => v.expect_value (List RichText)
  | _ => .error ⟨["Title"], v.type_name⟩

def PropertyValue.expect_text (v : PropertyValue) :
    Except WrongPropertyTypeError (List RichText) :=
  match v with
  | .text _ _ => v.expect_value (List RichText)
  | _ => .error ⟨["Text"], v.type_name⟩

def PropertyValue.expect_number (v : PropertyValue) :
    Except WrongPropertyTypeError (Option Number) :=
  match v with
  | .number _ _ => v.expect_value (Option Number)
  | _ => .error ⟨["Number"], v.type_name⟩

def PropertyValue.expect_select (v : PropertyValue) :
    Except WrongPropertyTypeError (Option SelectedValue) :=
  match v with
  | .select _ _ => v.expect_value (Option SelectedValue)
  | _ => .error ⟨["Select"], v.type_name⟩

def PropertyValue.expect_status (v : PropertyValue) :
    Except WrongPropertyTypeError (Option SelectedValue) :=
  match v with
  | .status _ _ => v.expect_value (Option SelectedValue)
  | _ => .error ⟨["Status"], v.type_name⟩

def PropertyValue.expect_multi_select (v : PropertyValue) :
    Except WrongPropertyTypeError (Option (List SelectedValue)) :=
  match v with
  | .multiSelect _ _ => v.expect_value (Option (List SelectedValue))
  | _ => .error ⟨["MultiSelect"], v.type_name⟩

def PropertyValue.expect_date (v : PropertyValue) :
    Except WrongPropertyTypeError (Option DateValue) :=
  match v with
  | .date _ _ => v.expect_value (Option DateValue)
  | _ => .error ⟨["Date"], v.type_name⟩

def PropertyValue.expect_people (v : PropertyValue) :
    Except WrongPropertyTypeError (Option (List User)) :=
  match v with
  | .people _ _ => v.expect_value (Option (List User))
  | _ => .error ⟨["People"], v.type_name⟩

def PropertyValue.expect_files (v : PropertyValue) :
    Except WrongPropertyTypeError (Option (List FileReference)) :=
  match v with
  | .files _ _ => v.expect_value (Option (List FileReference))
  | _ => .error ⟨["Files"], v.type_name⟩

def PropertyValue.expect_checkbox (v : PropertyValue) :
    Except WrongPropertyTypeError Bool :=
  match v with
  | .checkbox _ _ => v.expect_value Bool
  | _ => .error ⟨["Checkbox"], v.type_name⟩

def PropertyValue.expect_url (v : PropertyValue) :
    Except WrongPropertyTypeError (Option String) :=
  match v with
  | .url _ _ => v.expect_value (Option String)
  | _ => .error ⟨["Url"], v.type_name⟩

def PropertyValue.expect_email (v : PropertyValue) :
    Except WrongPropertyTypeError (Option String) :=
  match v with
  | .email _ _ => v.expect_value (Option String)
  | _ => .error ⟨["Email"], v.type_name⟩

def PropertyValue.expect_phone_number (v : PropertyValue) :
    Except WrongPropertyTypeError (Option String) :=
  match v with
  | .phoneNumber _ _ => v.expect_value (Option String)
  | _ => .error ⟨["PhoneNumber"], v.type_name⟩

def PropertyValue.expect_formula (v : PropertyValue) :
    Except WrongPropertyTypeError FormulaResultValue :=
  match v with
  | .formula _ _ => v.expect_value FormulaResultValue
  | _ => .error ⟨["Formula"], v.type_name⟩

def PropertyValue.expect_relation (v : PropertyValue) :
    Except WrongPropertyTypeError (Option (List RelationValue)) :=
  match v with
  | .relation _ _ => v.expect_value (Option (List RelationValue))
  | _ => .error ⟨["Relation"], v.type_name⟩

def PropertyValue.expect_rollup (v : PropertyValue) :
    Except WrongPropertyTypeError (Option RollupValue) :=
  match v with
  | .rollup _ _ => v.expect_value (Option RollupValue)
  | _ => .error ⟨["Rollup"], v.type_name⟩

def PropertyValue.expect_created_time (v : PropertyValue) :
    Except WrongPropertyTypeError DateTimeUtc :=
  match v with
  | .createdTime _ _ => v.expect_value DateTimeUtc
  | _ => .error ⟨["CreatedTime"], v.type_name⟩

def PropertyValue.expect_created_by (v : PropertyValue) :
    Except WrongPropertyTypeError User :=
  match v with
  | .createdBy _ _ => v.expect_value User
  | _ => .error ⟨["CreatedBy"], v.type_name⟩

def PropertyValue.expect_last_edited_time (v : PropertyValue) :
    Except WrongPropertyTypeError DateTimeUtc :=
  match v with
  | .lastEditedTime _ _ => v.expect_value DateTimeUtc
  | _ => .error ⟨["LastEditedTime"], v.type_name⟩

def PropertyValue.expect_last_edited_by (v : PropertyValue) :
    Except WrongPropertyTypeError User :=
  match v with
  | .lastEditedBy _ _ => v.expect_value User
  | _ => .error ⟨["LastEditedBy"], v.type_name⟩

def PropertyValue.expect_button (v : PropertyValue) :
    Except WrongPropertyTypeError Unit :=
  match v with
  | .button _ => .ok ()
  | _ => .error ⟨["Button"], v.type_name⟩

/-- Look up one key of a JSON object (the object's field map); `none` both
for a non-object and for an absent key. A key that is present with a null
value yields `some Json.null`, so `jsonField j key = none` means the key is
genuinely omitted. -/
def jsonField (j : Json) (key : String) : Option Json :=
  match j with
  | .obj fields => Json.getField fields key
  | _ => none

/-- serde's `rename_all = "snake_case"` rule: lowercase every character,
inserting an underscore before each uppercase character that is not the
first. -/
def snakeCaseChars : Bool → List Char → List Char
  | _, [] => []
  | first, c :: rest =>
    if c.isUpper then
      (if first then [c.toLower] else ['_', c.toLower]) ++ snakeCaseChars false rest
    else c :: snakeCaseChars false rest

def snakeCase (s : String) : String := String.mk (snakeCaseChars true s.data)

/-- C1: for every `PropertyValue` variant V carrying payload P, serializing
V{P} to JSON and then deserializing that JSON yields a value equal to V{P}:
round-trip identity of encode then decode across all 21 variants,
including the untagged `DateOrDateTime` payloads inside date values. -/
theorem claim_C1 (v : PropertyValue) :
    PropertyValue.fromJson v.toJson = some v :=
  propertyValue_roundtrip v

/-- C5 (counterexample): the claim says deserializing a `SelectedValue`
from a JSON object that lacks the "color" key succeeds; in the code
`color` is a plain required field, so decoding this concrete object with
`id` and `name` but no `color` fails. -/
theorem claim_C5_counterexample :
    SelectedValue.fromJson (Json.obj [("id", Json.str "opt-id"), ("name", Json.str "opt")]) =
      none := by
  rfl

/-- C5 (amended): deserializing a `SelectedValue` from a JSON object that
lacks the "color" key always fails with a decode error, because `color` is
a required field of `SelectedValue`; only `id` and `name` are optional. -/
theorem claim_C5 (fields : List (String × Json))
    (h : Json.getField fields "color" = none) :
    SelectedValue.fromJson (Json.obj fields) = none := by
  simp only [SelectedValue.fromJson, reqField, h, Option.none_bind]
  cases optField fields "id" SelectOptionId.fromJson <;> simp

/-- C5 witness: the amended theorem applied at a concrete object lacking
"color". -/
theorem claim_C5_witness :
    Json.getField [("name", Json.str "x")] "color" = none ∧
    SelectedValue.fromJson (Json.obj [("name", Json.str "x")]) = none :=
  ⟨by rfl, claim_C5 [("name", Json.str "x")] (by rfl)⟩

/-- C6: serializing a `SelectedValue` whose id and/or name is absent omits
those keys entirely (they are not present with a null value), and
deserializing a `SelectedValue` from JSON lacking the id and/or name keys
succeeds with `none` for the absent fields rather than a decode error. -/
theorem claim_C6 :
    (∀ (n : Option String) (c : Color),
      jsonField (SelectedValue.toJson ⟨none, n, c⟩) "id" = none) ∧
    (∀ (i : Option SelectOptionId) (c : Color),
      jsonField (SelectedValue.toJson ⟨i, none, c⟩) "name" = none) ∧
    (∀ c : Color,
      SelectedValue.fromJson (Json.obj [("color", c.toJson)]) = some ⟨none, none, c⟩) ∧
    (∀ (n : String) (c : Color),
      SelectedValue.fromJson (Json.obj [("name", Json.str n), ("color", c.toJson)]) =
        some ⟨none, some n, c⟩) ∧
    (∀ (i : String) (c : Color),
      SelectedValue.fromJson (Json.obj [("id", Json.str i), ("color", c.toJson)]) =
        some ⟨some ⟨i⟩, none, c⟩) := by
  refine ⟨?_, ?_, ?_, ?_, ?_⟩
  · intro n c
    cases n <;> simp [jsonField, SelectedValue.toJson, skipNoneField, Json.getField]
  · intro i c
    cases i <;> simp [jsonField, SelectedValue.toJson, skipNoneField, Json.getField]
  · intro c
    simp [SelectedValue.fromJson, reqField, optField, Json.getField, color_roundtrip]
  · intro n c
    simp [SelectedValue.fromJson, reqField, optField, Json.getField, decOptJson,
      Json.asStr, color_roundtrip]
  · intro i c
    simp [SelectedValue.fromJson, reqField, optField, Json.getField, decOptJson,
      SelectOptionId.fromJson, Json.asStr, color_roundtrip]

/-- C2: every convenience accessor `expect_<X>()` succeeds if and only if
the value's own variant tag is exactly X; in particular `expect_title()` on
a Text-tagged value returns a `WrongPropertyTypeError` with expected
["Title"] and actual "Text", even though the Text payload would convert to
the requested `Vec<RichText>` type via `expect_value`. -/
theorem claim_C2 :
    (∀ (i : PropertyId) (rt : List RichText),
      PropertyValue.expect_title (.text i rt) = .error ⟨["Title"], "Text"⟩) ∧
    (∀ (i : PropertyId) (rt : List RichText),
      PropertyValue.expect_value (List RichText) (.text i rt) = .ok rt) ∧
    (∀ v : PropertyValue, (v.expect_title).isOk = true ↔ v.type_name = "Title") ∧
    (∀ v : PropertyValue, (v.expect_text).isOk = true ↔ v.type_name = "Text") ∧
    (∀ v : PropertyValue, (v.expect_number).isOk = true ↔ v.type_name = "Number") ∧
    (∀ v : PropertyValue, (v.expect_select).isOk = true ↔ v.type_name = "Select") ∧
    (∀ v : PropertyValue, (v.expect_status).isOk = true ↔ v.type_name = "Status") ∧
    (∀ v : PropertyValue,
      (v.expect_multi_select).isOk = true ↔ v.type_name = "MultiSelect") ∧
    (∀ v : PropertyValue, (v.expect_date).isOk = true ↔ v.type_name = "Date") ∧
    (∀ v : PropertyValue, (v.expect_people).isOk = true ↔ v.type_name = "People") ∧
    (∀ v : PropertyValue, (v.expect_files).isOk = true ↔ v.type_name = "Files") ∧
    (∀ v : PropertyValue, (v.expect_checkbox).isOk = true ↔ v.type_name = "Checkbox") ∧
    (∀ v : PropertyValue, (v.expect_url).isOk = true ↔ v.type_name = "Url") ∧
    (∀ v : PropertyValue, (v.expect_email).isOk = true ↔ v.type_name = "Email") ∧
    (∀ v : PropertyValue,
      (v.expect_phone_number).isOk = true ↔ v.type_name = "PhoneNumber") ∧
    (∀ v : PropertyValue, (v.expect_formula).isOk = true ↔ v.type_name = "Formula") ∧
    (∀ v : PropertyValue, (v.expect_relation).isOk = true ↔ v.type_name = "Relation") ∧
    (∀ v : PropertyValue, (v.expect_rollup).isOk = true ↔ v.type_name = "Rollup") ∧
    (∀ v : PropertyValue,
      (v.expect_created_time).isOk = true ↔ v.type_name = "CreatedTime") ∧
    (∀ v : PropertyValue,
      (v.expect_created_by).isOk = true ↔ v.type_name = "CreatedBy") ∧
    (∀ v : PropertyValue,
      (v.expect_last_edited_time).isOk = true ↔ v.type_name = "LastEditedTime") ∧
    (∀ v : PropertyValue,
      (v.expect_last_edited_by).isOk = true ↔ v.type_name = "LastEditedBy") ∧
    (∀ v : PropertyValue, (v.expect_button).isOk = true ↔ v.type_name = "Button") := by
  refine ⟨fun i rt => rfl, fun i rt => rfl, ?_, ?_, ?_, ?_, ?_, ?_, ?_, ?_, ?_, ?_,
    ?_, ?_, ?_, ?_, ?_, ?_, ?_, ?_, ?_, ?_, ?_⟩ <;>
  · intro v
    cases v <;>
      simp [PropertyValue.expect_title, PropertyValue.expect_text,
        PropertyValue.expect_number, PropertyValue.expect_select,
        PropertyValue.expect_status, PropertyValue.expect_multi_select,
        PropertyValue.expect_date, PropertyValue.expect_people,
        PropertyValue.expect_files, PropertyValue.expect_checkbox,
        PropertyValue.expect_url, PropertyValue.expect_email,
        PropertyValue.expect_phone_number, PropertyValue.expect_formula,
        PropertyValue.expect_relation, PropertyValue.expect_rollup,
        PropertyValue.expect_created_time, PropertyValue.expect_created_by,
        PropertyValue.expect_last_edited_time, PropertyValue.expect_last_edited_by,
        PropertyValue.expect_button, PropertyValue.expect_value,
        PropertyValue.type_name, Except.isOk, Except.toBool,
        FromPropertyValue.from_property_value,
        instFromPVRichTexts, instFromPVOptNumber, instFromPVOptSelected,
        instFromPVOptSelectedList, instFromPVOptDate, instFromPVFormula,
        instFromPVOptRelation, instFromPVOptFiles, instFromPVBool,
        instFromPVOptString, instFromPVDateTime, instFromPVUser,
        instFromPVOptUsers, instFromPVOptRollup]

/-- C3: `expect_value::<Vec<RichText>>()` succeeds on Title-tagged values
(returning the title spans) and Text-tagged values (returning the
rich_text spans), and fails on every other variant with a
`WrongPropertyTypeError` whose expected is ["Title", "Text"] and whose
actual is the value's real tag name as produced by `type_name()`. -/
theorem claim_C3 :
    (∀ (i : PropertyId) (t : List RichText),
      PropertyValue.expect_value (List RichText) (.title i t) = .ok t) ∧
    (∀ (i : PropertyId) (rt : List RichText),
      PropertyValue.expect_value (List RichText) (.text i rt) = .ok rt) ∧
    (∀ v : PropertyValue, v.type_name ≠ "Title" → v.type_name ≠ "Text" →
      PropertyValue.expect_value (List RichText) v =
        .error ⟨["Title", "Text"], v.type_name⟩) := by
  refine ⟨fun i t => rfl, fun i rt => rfl, ?_⟩
  intro v h1 h2
  cases v <;>
    simp_all [PropertyValue.expect_value, FromPropertyValue.from_property_value,
      instFromPVRichTexts, PropertyValue.type_name]

/-- C3 witness: the failure clause of the theorem applied at a concrete
Checkbox-tagged value. -/
theorem claim_C3_witness :
    PropertyValue.expect_value (List RichText) (.checkbox ⟨"p"⟩ true) =
      .error ⟨["Title", "Text"], "Checkbox"⟩ :=
  claim_C3.2.2 (.checkbox ⟨"p"⟩ true) (by decide) (by decide)

/-- C9: for every People-tagged `PropertyValue`, `expect_people()` and
`expect_value::<Option<Vec<User>>>()` return `Ok(Some(people))`; the
`None` case of the `Option<Vec<User>>` return type is never produced on a
success, even when the people list is empty, and People is the only
variant these conversions accept. -/
theorem claim_C9 :
    (∀ (i : PropertyId) (ps : List User),
      PropertyValue.expect_people (.people i ps) = .ok (some ps)) ∧
    (∀ (i : PropertyId) (ps : List User),
      PropertyValue.expect_value (Option (List User)) (.people i ps) = .ok (some ps)) ∧
    (∀ v : PropertyValue, v.expect_people ≠ .ok none) ∧
    (∀ v : PropertyValue,
      PropertyValue.expect_value (Option (List User)) v ≠ .ok none) ∧
    (∀ v : PropertyValue, (v.expect_people).isOk = true ↔ v.type_name = "People") ∧
    (∀ v : PropertyValue,
      (PropertyValue.expect_value (Option (List User)) v).isOk = true ↔
        v.type_name = "People") := by
  refine ⟨fun i ps => rfl, fun i ps => rfl, ?_, ?_, ?_, ?_⟩ <;>
  · intro v
    cases v <;>
      simp [PropertyValue.expect_people, PropertyValue.expect_value,
        FromPropertyValue.from_property_value, instFromPVOptUsers,
        PropertyValue.type_name, Except.isOk, Except.toBool]

/-- C7: every narrowing failure, from `expect_value::<T>()` for each of
the 14 implemented target types and from each of the 21 `expect_<variant>()`
accessors, returns a `WrongPropertyTypeError` whose expected field is the
non-empty list of tag names the attempted target accepts and whose actual
field equals the value's tag name as produced by `type_name()` (the error
is returned, never panicked or swallowed: every narrowing operation is a
total function into `Except`). -/
theorem claim_C7 :
    (∀ (v : PropertyValue) (e : WrongPropertyTypeError),
      PropertyValue.expect_value (List RichText) v = .error e →
        e = ⟨["Title", "Text"], v.type_name⟩ ∧ e.expected ≠ []) ∧
    (∀ (v : PropertyValue) (e : WrongPropertyTypeError),
      PropertyValue.expect_value (Option Number) v = .error e →
        e = ⟨["Number"], v.type_name⟩ ∧ e.expected ≠ []) ∧
    (∀ (v : PropertyValue) (e : WrongPropertyTypeError),
      PropertyValue.expect_value (Option SelectedValue) v = .error e →
        e = ⟨["Select", "Status"], v.type_name⟩ ∧ e.expected ≠ []) ∧
    (∀ (v : PropertyValue) (e : WrongPropertyTypeError),
      PropertyValue.expect_value (Option (List SelectedValue)) v = .error e →
        e = ⟨["MultiSelect"], v.type_name⟩ ∧ e.expected ≠ []) ∧
    (∀ (v : PropertyValue) (e : WrongPropertyTypeError),
      PropertyValue.expect_value (Option DateValue) v = .error e →
        e = ⟨["Date"], v.type_name⟩ ∧ e.expected ≠ []) ∧
    (∀ (v : PropertyValue) (e : WrongPropertyTypeError),
      PropertyValue.expect_value (FormulaResultValue) v = .error e →
        e = ⟨["Formula"], v.type_name⟩ ∧ e.expected ≠ []) ∧
    (∀ (v : PropertyValue) (e : WrongPropertyTypeError),
      PropertyValue.expect_value (Option (List RelationValue)) v = .error e →
        e = ⟨["Relation"], v.type_name⟩ ∧ e.expected ≠ []) ∧
    (∀ (v : PropertyValue) (e : WrongPropertyTypeError),
      PropertyValue.expect_value (Option (List FileReference)) v = .error e →
        e = ⟨["Files"], v.type_name⟩ ∧ e.expected ≠ []) ∧
    (∀ (v : PropertyValue) (e : WrongPropertyTypeError),
      PropertyValue.expect_value (Bool) v = .error e →
        e = ⟨["Checkbox"], v.type_name⟩ ∧ e.expected ≠ []) ∧
    (∀ (v : PropertyValue) (e : WrongPropertyTypeError),
      PropertyValue.expect_value (Option String) v = .error e →
        e = ⟨["Url", "Email", "PhoneNumber"], v.type_name⟩ ∧ e.expected ≠ []) ∧
    (∀ (v : PropertyValue) (e : WrongPropertyTypeError),
      PropertyValue.expect_value (DateTimeUtc) v = .error e →
        e = ⟨["CreatedTime", "LastEditedTime"], v.type_name⟩ ∧ e.expected ≠ []) ∧
    (∀ (v : PropertyValue) (e : WrongPropertyTypeError),
      PropertyValue.expect_value (User) v = .error e →
        e = ⟨["CreatedBy", "LastEditedBy"], v.type_name⟩ ∧ e.expected ≠ []) ∧
    (∀ (v : PropertyValue) (e : WrongPropertyTypeError),
      PropertyValue.expect_value (Option (List User)) v = .error e →
        e = ⟨["People"], v.type_name⟩ ∧ e.expected ≠ []) ∧
    (∀ (v : PropertyValue) (e : WrongPropertyTypeError),
      PropertyValue.expect_value (Option RollupValue) v = .error e →
        e = ⟨["Rollup"], v.type_name⟩ ∧ e.expected ≠ []) ∧
    (∀ (v : PropertyValue) (e : WrongPropertyTypeError),
      PropertyValue.expect_title v = .error e →
        e = ⟨["Title"], v.type_name⟩ ∧ e.expected ≠ []) ∧
    (∀ (v : PropertyValue) (e : WrongPropertyTypeError),
      PropertyValue.expect_text v = .error e →
        e = ⟨["Text"], v.type_name⟩ ∧ e.expected ≠ []) ∧
    (∀ (v : PropertyValue) (e : WrongPropertyTypeError),
      PropertyValue.expect_number v = .error e →
        e = ⟨["Number"], v.type_name⟩ ∧ e.expected ≠ []) ∧
    (∀ (v : PropertyValue) (e : WrongPropertyTypeError),
      PropertyValue.expect_select v = .error e →
        e = ⟨["Select"], v.type_name⟩ ∧ e.expected ≠ []) ∧
    (∀ (v : PropertyValue) (e : WrongPropertyTypeError),
      PropertyValue.expect_status v = .error e →
        e = ⟨["Status"], v.type_name⟩ ∧ e.expected ≠ []) ∧
    (∀ (v : PropertyValue) (e : WrongPropertyTypeError),
      PropertyValue.expect_multi_select v = .error e →
        e = ⟨["MultiSelect"], v.type_name⟩ ∧ e.expected ≠ []) ∧
    (∀ (v : PropertyValue) (e : WrongPropertyTypeError),
      PropertyValue.expect_date v = .error e →
        e = ⟨["Date"], v.type_name⟩ ∧ e.expected ≠ []) ∧
    (∀ (v : PropertyValue) (e : WrongPropertyTypeError),
      PropertyValue.expect_people v = .error e →
        e = ⟨["People"], v.type_name⟩ ∧ e.expected ≠ []) ∧
    (∀ (v : PropertyValue) (e : WrongPropertyTypeError),
      PropertyValue.expect_files v = .error e →
        e = ⟨["Files"], v.type_name⟩ ∧ e.expected ≠ []) ∧
    (∀ (v : PropertyValue) (e : WrongPropertyTypeError),
      PropertyValue.expect_checkbox v = .error e →
        e = ⟨["Checkbox"], v.type_name⟩ ∧ e.expected ≠ []) ∧
    (∀ (v : PropertyValue) (e : WrongPropertyTypeError),
      PropertyValue.expect_url v = .error e →
        e = ⟨["Url"], v.type_name⟩ ∧ e.expected ≠ []) ∧
    (∀ (v : PropertyValue) (e : WrongPropertyTypeError),
      PropertyValue.expect_email v = .error e →
        e = ⟨["Email"], v.type_name⟩ ∧ e.expected ≠ []) ∧
    (∀ (v : PropertyValue) (e : WrongPropertyTypeError),
      PropertyValue.expect_phone_number v = .error e →
        e = ⟨["PhoneNumber"], v.type_name⟩ ∧ e.expected ≠ []) ∧
    (∀ (v : PropertyValue) (e : WrongPropertyTypeError),
      PropertyValue.expect_formula v = .error e →
        e = ⟨["Formula"], v.type_name⟩ ∧ e.expected ≠ []) ∧
    (∀ (v : PropertyValue) (e : WrongPropertyTypeError),
      PropertyValue.expect_relation v = .error e →
        e = ⟨["Relation"], v.type_name⟩ ∧ e.expected ≠ []) ∧
    (∀ (v : PropertyValue) (e : WrongPropertyTypeError),
      PropertyValue.expect_rollup v = .error e →
        e = ⟨["Rollup"], v.type_name⟩ ∧ e.expected ≠ []) ∧
    (∀ (v : PropertyValue) (e : WrongPropertyTypeError),
      PropertyValue.expect_created_time v = .error e →
        e = ⟨["CreatedTime"], v.type_name⟩ ∧ e.expected ≠ []) ∧
    (∀ (v : PropertyValue) (e : WrongPropertyTypeError),
      PropertyValue.expect_created_by v = .error e →
        e = ⟨["CreatedBy"], v.type_name⟩ ∧ e.expected ≠ []) ∧
    (∀ (v : PropertyValue) (e : WrongPropertyTypeError),
      PropertyValue.expect_last_edited_time v = .error e →
        e = ⟨["LastEditedTime"], v.type_name⟩ ∧ e.expected ≠ []) ∧
    (∀ (v : PropertyValue) (e : WrongPropertyTypeError),
      PropertyValue.expect_last_edited_by v = .error e →
        e = ⟨["LastEditedBy"], v.type_name⟩ ∧ e.expected ≠ []) ∧
    (∀ (v : PropertyValue) (e : WrongPropertyTypeError),
      PropertyValue.expect_button v = .error e →
        e = ⟨["Button"], v.type_name⟩ ∧ e.expected ≠ []) := by
  refine ⟨?_, ?_, ?_, ?_, ?_, ?_, ?_, ?_, ?_, ?_, ?_, ?_, ?_, ?_, ?_, ?_, ?_, ?_, ?_, ?_, ?_, ?_, ?_, ?_, ?_, ?_, ?_, ?_, ?_, ?_, ?_, ?_, ?_, ?_, ?_⟩
  · intro v e h
    cases v <;> simp [PropertyValue.expect_value,
        FromPropertyValue.from_property_value, instFromPVRichTexts] at h <;>
      subst h <;> simp [PropertyValue.type_name]
  · intro v e h
    cases v <;> simp [PropertyValue.expect_value,
        FromPropertyValue.from_property_value, instFromPVOptNumber] at h <;>
      subst h <;> simp [PropertyValue.type_name]
  · intro v e h
    cases v <;> simp [PropertyValue.expect_value,
        FromPropertyValue.from_property_value, instFromPVOptSelected] at h <;>
      subst h <;> simp [PropertyValue.type_name]
  · intro v e h
    cases v <;> simp [PropertyValue.expect_value,
        FromPropertyValue.from_property_value, instFromPVOptSelectedList] at h <;>
      subst h <;> simp [PropertyValue.type_name]
  · intro v e h
    cases v <;> simp [PropertyValue.expect_value,
        FromPropertyValue.from_property_value, instFromPVOptDate] at h <;>
      subst h <;> simp [PropertyValue.type_name]
  · intro v e h
    cases v <;> simp [PropertyValue.expect_value,
        FromPropertyValue.from_property_value, instFromPVFormula] at h <;>
      subst h <;> simp [PropertyValue.type_name]
  · intro v e h
    cases v <;> simp [PropertyValue.expect_value,
        FromPropertyValue.from_property_value, instFromPVOptRelation] at h <;>
      subst h <;> simp [PropertyValue.type_name]
  · intro v e h
    cases v <;> simp [PropertyValue.expect_value,
        FromPropertyValue.from_property_value, instFromPVOptFiles] at h <;>
      subst h <;> simp [PropertyValue.type_name]
  · intro v e h
    cases v <;> simp [PropertyValue.expect_value,
        FromPropertyValue.from_property_value, instFromPVBool] at h <;>
      subst h <;> simp [PropertyValue.type_name]
  · intro v e h
    cases v <;> simp [PropertyValue.expect_value,
        FromPropertyValue.from_property_value, instFromPVOptString] at h <;>
      subst h <;> simp [PropertyValue.type_name]
  · intro v e h
    cases v <;> simp [PropertyValue.expect_value,
        FromPropertyValue.from_property_value, instFromPVDateTime] at h <;>
      subst h <;> simp [PropertyValue.type_name]
  · intro v e h
    cases v <;> simp [PropertyValue.expect_value,
        FromPropertyValue.from_property_value, instFromPVUser] at h <;>
      subst h <;> simp [PropertyValue.type_name]
  · intro v e h
    cases v <;> simp [PropertyValue.expect_value,
        FromPropertyValue.from_property_value, instFromPVOptUsers] at h <;>
      subst h <;> simp [PropertyValue.type_name]
  · intro v e h
    cases v <;> simp [PropertyValue.expect_value,
        FromPropertyValue.from_property_value, instFromPVOptRollup] at h <;>
      subst h <;> simp [PropertyValue.type_name]
  · intro v e h
    cases v <;> simp [PropertyValue.expect_title, PropertyValue.expect_value,
        FromPropertyValue.from_property_value, instFromPVRichTexts,
        instFromPVOptNumber, instFromPVOptSelected, instFromPVOptSelectedList,
        instFromPVOptDate, instFromPVFormula, instFromPVOptRelation,
        instFromPVOptFiles, instFromPVBool, instFromPVOptString,
        instFromPVDateTime, instFromPVUser, instFromPVOptUsers,
        instFromPVOptRollup, PropertyValue.type_name] at h <;>
      subst h <;> simp [PropertyValue.type_name]
  · intro v e h
    cases v <;> simp [PropertyValue.expect_text, PropertyValue.expect_value,
        FromPropertyValue.from_property_value, instFromPVRichTexts,
        instFromPVOptNumber, instFromPVOptSelected, instFromPVOptSelectedList,
        instFromPVOptDate, instFromPVFormula, instFromPVOptRelation,
        instFromPVOptFiles, instFromPVBool, instFromPVOptString,
        instFromPVDateTime, instFromPVUser, instFromPVOptUsers,
        instFromPVOptRollup, PropertyValue.type_name] at h <;>
      subst h <;> simp [PropertyValue.type_name]
  · intro v e h
    cases v <;> simp [PropertyValue.expect_number, PropertyValue.expect_value,
        FromPropertyValue.from_property_value, instFromPVRichTexts,
        instFromPVOptNumber, instFromPVOptSelected, instFromPVOptSelectedList,
        instFromPVOptDate, instFromPVFormula, instFromPVOptRelation,
        instFromPVOptFiles, instFromPVBool, instFromPVOptString,
        instFromPVDateTime, instFromPVUser, instFromPVOptUsers,
        instFromPVOptRollup, PropertyValue.type_name] at h <;>
      subst h <;> simp [PropertyValue.type_name]
  · intro v e h
    cases v <;> simp [PropertyValue.expect_select, PropertyValue.expect_value,
        FromPropertyValue.from_property_value, instFromPVRichTexts,
        instFromPVOptNumber, instFromPVOptSelected, instFromPVOptSelectedList,
        instFromPVOptDate, instFromPVFormula, instFromPVOptRelation,
        instFromPVOptFiles, instFromPVBool, instFromPVOptString,
        instFromPVDateTime, instFromPVUser, instFromPVOptUsers,
        instFromPVOptRollup, PropertyValue.type_name] at h <;>
      subst h <;> simp [PropertyValue.type_name]
  · intro v e h
    cases v <;> simp [PropertyValue.expect_status, PropertyValue.expect_value,
        FromPropertyValue.from_property_value, instFromPVRichTexts,
        instFromPVOptNumber, instFromPVOptSelected, instFromPVOptSelectedList,
        instFromPVOptDate, instFromPVFormula, instFromPVOptRelation,
        instFromPVOptFiles, instFromPVBool, instFromPVOptString,
        instFromPVDateTime, instFromPVUser, instFromPVOptUsers,
        instFromPVOptRollup, PropertyValue.type_name] at h <;>
      subst h <;> simp [PropertyValue.type_name]
  · intro v e h
    cases v <;> simp [PropertyValue.expect_multi_select, PropertyValue.expect_value,
        FromPropertyValue.from_property_value, instFromPVRichTexts,
        instFromPVOptNumber, instFromPVOptSelected, instFromPVOptSelectedList,
        instFromPVOptDate, instFromPVFormula, instFromPVOptRelation,
        instFromPVOptFiles, instFromPVBool, instFromPVOptString,
        instFromPVDateTime, instFromPVUser, instFromPVOptUsers,
        instFromPVOptRollup, PropertyValue.type_name] at h <;>
      subst h <;> simp [PropertyValue.type_name]
  · intro v e h
    cases v <;> simp [PropertyValue.expect_date, PropertyValue.expect_value,
        FromPropertyValue.from_property_value, instFromPVRichTexts,
        instFromPVOptNumber, instFromPVOptSelected, instFromPVOptSelectedList,
        instFromPVOptDate, instFromPVFormula, instFromPVOptRelation,
        instFromPVOptFiles, instFromPVBool, instFromPVOptString,
        instFromPVDateTime, instFromPVUser, instFromPVOptUsers,
        instFromPVOptRollup, PropertyValue.type_name] at h <;>
      subst h <;> simp [PropertyValue.type_name]
  · intro v e h
    cases v <;> simp [PropertyValue.expect_people, PropertyValue.expect_value,
        FromPropertyValue.from_property_value, instFromPVRichTexts,
        instFromPVOptNumber, instFromPVOptSelected, instFromPVOptSelectedList,
        instFromPVOptDate, instFromPVFormula, instFromPVOptRelation,
        instFromPVOptFiles, instFromPVBool, instFromPVOptString,
        instFromPVDateTime, instFromPVUser, instFromPVOptUsers,
        instFromPVOptRollup, PropertyValue.type_name] at h <;>
      subst h <;> simp [PropertyValue.type_name]
  · intro v e h
    cases v <;> simp [PropertyValue.expect_files, PropertyValue.expect_value,
        FromPropertyValue.from_property_value, instFromPVRichTexts,
        instFromPVOptNumber, instFromPVOptSelected, instFromPVOptSelectedList,
        instFromPVOptDate, instFromPVFormula, instFromPVOptRelation,
        instFromPVOptFiles, instFromPVBool, instFromPVOptString,
        instFromPVDateTime, instFromPVUser, instFromPVOptUsers,
        instFromPVOptRollup, PropertyValue.type_name] at h <;>
      subst h <;> simp [PropertyValue.type_name]
  · intro v e h
    cases v <;> simp [PropertyValue.expect_checkbox, PropertyValue.expect_value,
        FromPropertyValue.from_property_value, instFromPVRichTexts,
        instFromPVOptNumber, instFromPVOptSelected, instFromPVOptSelectedList,
        instFromPVOptDate, instFromPVFormula, instFromPVOptRelation,
        instFromPVOptFiles, instFromPVBool, instFromPVOptString,
        instFromPVDateTime, instFromPVUser, instFromPVOptUsers,
        instFromPVOptRollup, PropertyValue.type_name] at h <;>
      subst h <;> simp [PropertyValue.type_name]
  · intro v e h
    cases v <;> simp [PropertyValue.expect_url, PropertyValue.expect_value,
        FromPropertyValue.from_property_value, instFromPVRichTexts,
        instFromPVOptNumber, instFromPVOptSelected, instFromPVOptSelectedList,
        instFromPVOptDate, instFromPVFormula, instFromPVOptRelation,
        instFromPVOptFiles, instFromPVBool, instFromPVOptString,
        instFromPVDateTime, instFromPVUser, instFromPVOptUsers,
        instFromPVOptRollup, PropertyValue.type_name] at h <;>
      subst h <;> simp [PropertyValue.type_name]
  · intro v e h
    cases v <;> simp [PropertyValue.expect_email, PropertyValue.expect_value,
        FromPropertyValue.from_property_value, instFromPVRichTexts,
        instFromPVOptNumber, instFromPVOptSelected, instFromPVOptSelectedList,
        instFromPVOptDate, instFromPVFormula, instFromPVOptRelation,
        instFromPVOptFiles, instFromPVBool, instFromPVOptString,
        instFromPVDateTime, instFromPVUser, instFromPVOptUsers,
        instFromPVOptRollup, PropertyValue.type_name] at h <;>
      subst h <;> simp [PropertyValue.type_name]
  · intro v e h
    cases v <;> simp [PropertyValue.expect_phone_number, PropertyValue.expect_value,
        FromPropertyValue.from_property_value, instFromPVRichTexts,
        instFromPVOptNumber, instFromPVOptSelected, instFromPVOptSelectedList,
        instFromPVOptDate, instFromPVFormula, instFromPVOptRelation,
        instFromPVOptFiles, instFromPVBool, instFromPVOptString,
        instFromPVDateTime, instFromPVUser, instFromPVOptUsers,
        instFromPVOptRollup, PropertyValue.type_name] at h <;>
      subst h <;> simp [PropertyValue.type_name]
  · intro v e h
    cases v <;> simp [PropertyValue.expect_formula, PropertyValue.expect_value,
        FromPropertyValue.from_property_value, instFromPVRichTexts,
        instFromPVOptNumber, instFromPVOptSelected, instFromPVOptSelectedList,
        instFromPVOptDate, instFromPVFormula, instFromPVOptRelation,
        instFromPVOptFiles, instFromPVBool, instFromPVOptString,
        instFromPVDateTime, instFromPVUser, instFromPVOptUsers,
        instFromPVOptRollup, PropertyValue.type_name] at h <;>
      subst h <;> simp [PropertyValue.type_name]
  · intro v e h
    cases v <;> simp [PropertyValue.expect_relation, PropertyValue.expect_value,
        FromPropertyValue.from_property_value, instFromPVRichTexts,
        instFromPVOptNumber, instFromPVOptSelected, instFromPVOptSelectedList,
        instFromPVOptDate, instFromPVFormula, instFromPVOptRelation,
        instFromPVOptFiles, instFromPVBool, instFromPVOptString,
        instFromPVDateTime, instFromPVUser, instFromPVOptUsers,
        instFromPVOptRollup, PropertyValue.type_name] at h <;>
      subst h <;> simp [PropertyValue.type_name]
  · intro v e h
    cases v <;> simp [PropertyValue.expect_rollup, PropertyValue.expect_value,
        FromPropertyValue.from_property_value, instFromPVRichTexts,
        instFromPVOptNumber, instFromPVOptSelected, instFromPVOptSelectedList,
        instFromPVOptDate, instFromPVFormula, instFromPVOptRelation,
        instFromPVOptFiles, instFromPVBool, instFromPVOptString,
        instFromPVDateTime, instFromPVUser, instFromPVOptUsers,
        instFromPVOptRollup, PropertyValue.type_name] at h <;>
      subst h <;> simp [PropertyValue.type_name]
  · intro v e h
    cases v <;> simp [PropertyValue.expect_created_time, PropertyValue.expect_value,
        FromPropertyValue.from_property_value, instFromPVRichTexts,
        instFromPVOptNumber, instFromPVOptSelected, instFromPVOptSelectedList,
        instFromPVOptDate, instFromPVFormula, instFromPVOptRelation,
        instFromPVOptFiles, instFromPVBool, instFromPVOptString,
        instFromPVDateTime, instFromPVUser, instFromPVOptUsers,
        instFromPVOptRollup, PropertyValue.type_name] at h <;>
      subst h <;> simp [PropertyValue.type_name]
  · intro v e h
    cases v <;> simp [PropertyValue.expect_created_by, PropertyValue.expect_value,
        FromPropertyValue.from_property_value, instFromPVRichTexts,
        instFromPVOptNumber, instFromPVOptSelected, instFromPVOptSelectedList,
        instFromPVOptDate, instFromPVFormula, instFromPVOptRelation,
        instFromPVOptFiles, instFromPVBool, instFromPVOptString,
        instFromPVDateTime, instFromPVUser, instFromPVOptUsers,
        instFromPVOptRollup, PropertyValue.type_name] at h <;>
      subst h <;> simp [PropertyValue.type_name]
  · intro v e h
    cases v <;> simp [PropertyValue.expect_last_edited_time, PropertyValue.expect_value,
        FromPropertyValue.from_property_value, instFromPVRichTexts,
        instFromPVOptNumber, instFromPVOptSelected, instFromPVOptSelectedList,
        instFromPVOptDate, instFromPVFormula, instFromPVOptRelation,
        instFromPVOptFiles, instFromPVBool, instFromPVOptString,
        instFromPVDateTime, instFromPVUser, instFromPVOptUsers,
        instFromPVOptRollup, PropertyValue.type_name] at h <;>
      subst h <;> simp [PropertyValue.type_name]
  · intro v e h
    cases v <;> simp [PropertyValue.expect_last_edited_by, PropertyValue.expect_value,
        FromPropertyValue.from_property_value, instFromPVRichTexts,
        instFromPVOptNumber, instFromPVOptSelected, instFromPVOptSelectedList,
        instFromPVOptDate, instFromPVFormula, instFromPVOptRelation,
        instFromPVOptFiles, instFromPVBool, instFromPVOptString,
        instFromPVDateTime, instFromPVUser, instFromPVOptUsers,
        instFromPVOptRollup, PropertyValue.type_name] at h <;>
      subst h <;> simp [PropertyValue.type_name]
  · intro v e h
    cases v <;> simp [PropertyValue.expect_button, PropertyValue.expect_value,
        FromPropertyValue.from_property_value, instFromPVRichTexts,
        instFromPVOptNumber, instFromPVOptSelected, instFromPVOptSelectedList,
        instFromPVOptDate, instFromPVFormula, instFromPVOptRelation,
        instFromPVOptFiles, instFromPVBool, instFromPVOptString,
        instFromPVDateTime, instFromPVUser, instFromPVOptUsers,
        instFromPVOptRollup, PropertyValue.type_name] at h <;>
      subst h <;> simp [PropertyValue.type_name]

/-- C7 witness: the `expect_title` clause of the theorem applied at a
concrete Checkbox-tagged value and its concrete error. -/
theorem claim_C7_witness :
    (⟨["Title"], "Checkbox"⟩ : WrongPropertyTypeError) =
      ⟨["Title"], PropertyValue.type_name (.checkbox ⟨"p"⟩ true)⟩ ∧
    (⟨["Title"], "Checkbox"⟩ : WrongPropertyTypeError).expected ≠ [] :=
  claim_C7.2.2.2.2.2.2.2.2.2.2.2.2.2.2.1 (.checkbox ⟨"p"⟩ true) ⟨["Title"], "Checkbox"⟩ (by rfl)

/-- C4: deserializing a JSON object with discriminator "rich_text" yields
the internally Text-tagged `PropertyValue` variant, and re-serializing
that variant emits the wire key "rich_text" (never "text"); for every
other variant the wire tag is the snake_case form of the variant name. -/
theorem claim_C4 :
    (∀ (s : String) (rt : List RichText),
      PropertyValue.fromJson (Json.obj [("type", Json.str "rich_text"),
        ("id", Json.str s), ("rich_text", encArr RichText.toJson rt)]) =
        some (.text ⟨s⟩ rt)) ∧
    (∀ (i : PropertyId) (rt : List RichText),
      jsonField ((PropertyValue.text i rt).toJson) "type" =
        some (Json.str "rich_text")) ∧
    (("rich_text" : String) ≠ "text") ∧
    (∀ v : PropertyValue, v.type_name ≠ "Text" →
      jsonField v.toJson "type" = some (Json.str (snakeCase v.type_name))) := by
  refine ⟨?_, fun i rt => rfl, by decide, ?_⟩
  · intro s rt
    simp [PropertyValue.fromJson, reqField, Json.getField, Json.asStr, encArr,
      decodeArr_map RichText.fromJson RichText.toJson richText_roundtrip]
  · intro v h
    cases v <;>
      simp_all [jsonField, PropertyValue.toJson, PropertyValue.type_name,
        Json.getField] <;>
      decide

/-- C4 witness: the snake-case clause applied at a concrete MultiSelect
value. -/
theorem claim_C4_witness :
    PropertyValue.type_name (.multiSelect ⟨"p"⟩ none) ≠ "Text" ∧
    jsonField (PropertyValue.toJson (.multiSelect ⟨"p"⟩ none)) "type" =
      some (Json.str (snakeCase (PropertyValue.type_name (.multiSelect ⟨"p"⟩ none)))) :=
  ⟨by decide, claim_C4.2.2.2 (.multiSelect ⟨"p"⟩ none) (by decide)⟩

/-- C8: deserializing a Rollup-tagged `PropertyValue` whose rollup payload
has type "array" containing a rich_text-typed element yields the Rollup
variant holding `some (RollupValue.array ..)` whose element at index 0 is
a `RollupPropertyValue.text`; indexing the array at 0 and matching the
Text variant succeeds. -/
theorem claim_C8 (i : PropertyId) (rts : List RichText)
    (rest : List RollupPropertyValue) :
    PropertyValue.fromJson (Json.obj [("type", Json.str "rollup"),
      ("id", Json.str i.val),
      ("rollup", Json.obj [("type", Json.str "array"),
        ("array", Json.arr (Json.obj [("type", Json.str "rich_text"),
          ("rich_text", encArr RichText.toJson rts)] :: encodeRollupElems rest))])]) =
      some (.rollup i (some (.array (.text rts :: rest)))) ∧
    (RollupPropertyValue.text rts :: rest).get? 0 = some (.text rts) := by
  constructor
  · simp [PropertyValue.fromJson, reqField, optField, Json.getField, Json.asStr,
      decOptJson, RollupValue.fromJson, decodeRollupElems,
      RollupPropertyValue.fromJson, decodeRollupPVOther, encArr,
      decodeArr_map RichText.fromJson RichText.toJson richText_roundtrip,
      decodeRollupElems_enc rest]
  · rfl

/-- C10: the phone_number payload is stricter inside rollup arrays than at
top level: a top-level `PropertyValue::PhoneNumber` carries
`Option<String>` and decodes when phone_number is null or absent, while
`RollupPropertyValue::PhoneNumber` carries a non-optional `String`, so the
same wire object with a null phone_number payload decodes at top level but
fails to decode as a rollup array element (and inside a
`RollupValue::Array`). -/
theorem claim_C10 :
    PropertyValue.fromJson (Json.obj [("type", Json.str "phone_number"),
      ("id", Json.str "abc"), ("phone_number", Json.null)]) =
      some (.phoneNumber ⟨"abc"⟩ none) ∧
    PropertyValue.fromJson (Json.obj [("type", Json.str "phone_number"),
      ("id", Json.str "abc")]) = some (.phoneNumber ⟨"abc"⟩ none) ∧
    RollupPropertyValue.fromJson (Json.obj [("type", Json.str "phone_number"),
      ("id", Json.str "abc"), ("phone_number", Json.null)]) = none ∧
    RollupValue.fromJson (Json.obj [("type", Json.str "array"),
      ("array", Json.arr [Json.obj [("type", Json.str "phone_number"),
        ("id", Json.str "abc"), ("phone_number", Json.null)]])]) = none := by
  refine ⟨by rfl, by rfl, ?_, ?_⟩
  · simp [RollupPropertyValue.fromJson, decodeRollupPVOther, reqField,
      Json.getField, Json.asStr]
  · simp [RollupValue.fromJson, decodeRollupElems, RollupPropertyValue.fromJson,
      decodeRollupPVOther, reqField, Json.getField, Json.asStr]

end RusticNotion
